import Mathlib

/-!
Titan Security: a shallow embedding of the controller.

Two implementations live side by side in the repository:

* the refactored one, class TitanSecurity (src/TitanSecurity.cpp) with the
  dispatcher Alarm (src/Alarm.cpp) built from Sound, Notify and Log;
* the original one, class TitanSystem (TitanSecurityHub.cpp), which keeps the
  registry in four parallel vectors and dispatches inline.

Modelling conventions.

* A C++ int is a Lean Int.  The readings are only compared with 1 and 50, so
  no arithmetic can overflow; the one place where an int meets a size_t (the
  bound check of simulateSensorInput) converts explicitly, see toSizeT.
* Console output is recorded line by line.  A member function that prints
  returns the list of things it did, in program order.
* The controller level (setMode, pollSensors, simulateSensorInput) records an
  Action per console line and per call of triggerAlarm; the dispatcher level
  (triggerAlarm and the three sinks) records an Event per line written to
  std::cout, std::cerr or the log file.  perform joins the two levels.
* A std::shared_ptr to a sensor is modelled by the sensor's value: the
  constructor makes three distinct objects and nothing else ever stores a
  pointer, so no two registry slots alias.
* The text std::ctime returns and the outcome of opening the log file come
  from outside the program; a LogEnv carries them for each call of logToFile.
* The statements of main (main.cpp) are a list of Stmt, run by Main.exec.
-/

namespace Titan

/-! ## Observable effects -/

/-- An effect of the dispatcher on the outside world. -/
inductive Event where
  /-- The text followed by std::endl, written to std::cout. -/
  | cout (text : String)
  /-- The text followed by std::endl, written to std::cerr. -/
  | cerr (text : String)
  /-- The text appended to the named file. -/
  | fileAppend (file : String) (text : String)
  deriving DecidableEq, Repr

/-- An effect of the controller: a console line, or a call of triggerAlarm. -/
inductive Action where
  /-- The line followed by std::endl, written to std::cout. -/
  | print (line : String)
  /-- A call triggerAlarm(severity, sendWho). -/
  | triggerAlarm (severity : String) (sendWho : String)
  deriving DecidableEq, Repr

/-- What one call of logToFile meets outside the program: whether the log file
opens for appending, and the text std::ctime returns for the current time. -/
structure LogEnv where
  is_open : Bool
  ctime : String
  deriving DecidableEq, Repr

/-- The (severity, recipient) pairs of the triggerAlarm calls, in order. -/
def requests : List Action → List (String × String)
  | [] => []
  | Action.print _ :: rest => requests rest
  | Action.triggerAlarm severity sendWho :: rest => (severity, sendWho) :: requests rest

/-! ## The sinks (src/Sound.cpp, src/Notify.cpp, src/Log.cpp) -/

/-- Sound::makeSound. -/
def Sound.makeSound (severity : String) : List Event :=
  if severity = "High" ∨ severity = "Critical" then
    [Event.cout ">>> PLAYING LOUD SIREN SOUND <<<"]
  else
    [Event.cout ">>> Beeping Keypad <<<"]

/-- Notify::send. -/
def Notify.send (sendWho : String) : List Event :=
  if sendWho = "Police" then
    [Event.cout "Dialing 911..."]
  else if sendWho = "FireDept" then
    [Event.cout "Dialing Fire Department..."]
  else if sendWho = "UserPhone" then
    [Event.cout "Sending Push Notification to User..."]
  else
    [Event.cout "Invalid recipient"]

/-- Log::logToFile: the file is info.txt, opened for appending. -/
def Log.logToFile (env : LogEnv) (message : String) : List Event :=
  if env.is_open then
    [Event.fileAppend "info.txt" (env.ctime ++ " - " ++ message ++ "\n")]
  else
    [Event.cerr "Failed to write to log file."]

/-- Alarm::triggerAlarm (src/Alarm.cpp). -/
def Alarm.triggerAlarm (env : LogEnv) (severity sendWho : String) : List Event :=
  [Event.cout ("!!! ALARM TRIGGERED [" ++ severity ++ "] !!!")]
    ++ Sound.makeSound severity
    ++ Notify.send sendWho
    ++ Log.logToFile env ("ALARM: " ++ severity ++ " sent to " ++ sendWho)

/-! ## The refactored controller (src/TitanSecurity.cpp) -/

/-- The dynamic type of a registry entry, as the chain of
std::dynamic_pointer_cast tests in pollSensors sees it. -/
inductive SensorClass where
  | DoorSensor
  | MotionSensor
  | HeatSensor
  /-- A plain Sensor, or a subclass that is none of the three above. -/
  | other
  deriving DecidableEq, Repr

/-- Class Sensor (include/Sensor.hpp) together with its dynamic type. -/
structure Sensor where
  dynamicType : SensorClass
  sensorName : String
  sensorLocation : String
  data : Int
  deriving DecidableEq, Repr

/-- Sensor::setData. -/
def Sensor.setData (self : Sensor) (ddata : Int) : Sensor :=
  { self with data := ddata }

/-- The data members of class TitanSecurity (the alarm member has no state). -/
structure TitanSecurity where
  Sensors : List Sensor
  systemArmed : Bool
  currentMode : String
  deriving DecidableEq, Repr

/-- The constructor TitanSecurity::TitanSecurity. -/
def TitanSecurity.new : TitanSecurity :=
  { systemArmed := false
    currentMode := "Day"
    Sensors :=
      [ { dynamicType := SensorClass.DoorSensor, sensorName := "Front Door",
          sensorLocation := "Entry", data := 0 },
        { dynamicType := SensorClass.MotionSensor, sensorName := "Living Room Motion",
          sensorLocation := "Living Room", data := 0 },
        { dynamicType := SensorClass.HeatSensor, sensorName := "Kitchen Heat",
          sensorLocation := "Kitchen", data := 25 } ] }

/-- TitanSecurity::setMode. -/
def TitanSecurity.setMode (self : TitanSecurity) (mode : String) :
    TitanSecurity × List Action :=
  if mode = "Day" ∨ mode = "Night" ∨ mode = "Away" then
    let self1 := { self with currentMode := mode }
    let out := [Action.print ("[System] Mode set to: " ++ mode)]
    if mode = "Away" then
      ({ self1 with systemArmed := true }, out)
    else
      ({ self1 with systemArmed := false }, out)
  else
    (self, [Action.print "[Error] Unknown mode."])

/-- The body of the loop of TitanSecurity::pollSensors for the sensor at
index i. -/
def TitanSecurity.pollSensor (self : TitanSecurity) (i : Nat) (sensor : Sensor) :
    List Action :=
  let name := sensor.sensorName
  let data := sensor.data
  match sensor.dynamicType with
  | SensorClass.DoorSensor =>
    if data = 1 ∧ self.systemArmed = true then
      [Action.print ("Reading " ++ name ++ "... " ++ "! Triggering Alarm!"),
       Action.triggerAlarm "High" "Police"]
    else
      [Action.print ("Reading " ++ name ++ "... " ++ "Secure.")]
  | SensorClass.MotionSensor =>
    if data = 1 ∧ self.currentMode = "Away" then
      [Action.print ("Reading " ++ name ++ "... " ++ "MOTION DETECTED!"),
       Action.triggerAlarm "Medium" "UserPhone"]
    else
      [Action.print ("Reading " ++ name ++ "... " ++ "No Motion.")]
  | SensorClass.HeatSensor =>
    if data > 50 then
      [Action.print ("Reading " ++ name ++ "... Temp: " ++ toString data ++ "C. "
          ++ "DANGER! FIRE!"),
       Action.triggerAlarm "Critical" "FireDept"]
    else
      [Action.print ("Reading " ++ name ++ "... Temp: " ++ toString data ++ "C. "
          ++ "Normal.")]
  | SensorClass.other =>
    [Action.print ("[Warning] Unknown sensor type found in index " ++ toString i)]

/-- The loop of TitanSecurity::pollSensors, from index i over the sensors that
remain. -/
def TitanSecurity.pollLoop (self : TitanSecurity) : Nat → List Sensor → List Action
  | _, [] => []
  | i, sensor :: rest => self.pollSensor i sensor ++ TitanSecurity.pollLoop self (i + 1) rest

/-- TitanSecurity::pollSensors. -/
def TitanSecurity.pollSensors (self : TitanSecurity) : TitanSecurity × List Action :=
  (self,
   Action.print ("\n--- Polling Sensors (" ++ self.currentMode ++ " Mode) ---")
     :: self.pollLoop 0 self.Sensors)

/-- The conversion of an int to size_t (64 bits) that the comparison
index < Sensors.size() and the subscript Sensors[index] perform. -/
def toSizeT (index : Int) : Nat :=
  (index % 18446744073709551616).toNat

/-- TitanSecurity::simulateSensorInput. -/
def TitanSecurity.simulateSensorInput (self : TitanSecurity) (index value : Int) :
    TitanSecurity × List Action :=
  if index ≥ 0 ∧ toSizeT index < self.Sensors.length then
    ({ self with Sensors := self.Sensors.modify (fun sensor => sensor.setData value) (toSizeT index) }, [])
  else
    (self, [])

/-- TitanSecurity::generateReport. -/
def TitanSecurity.generateReport (self : TitanSecurity) : TitanSecurity × List Action :=
  (self,
   [Action.print "\nGenerating System Report...",
    Action.print ("Sensors Online: " ++ toString self.Sensors.length),
    Action.print ("System Armed: " ++ (if self.systemArmed then "YES" else "NO"))])

/-! ## The original controller (TitanSecurityHub.cpp) -/

/-- The data members of class TitanSystem: four parallel vectors and the
mode. -/
structure TitanSystem where
  sensorNames : List String
  sensorTypes : List String
  sensorData : List Int
  sensorLocations : List String
  systemArmed : Bool
  currentMode : String
  deriving DecidableEq, Repr

/-- The constructor TitanSystem::TitanSystem. -/
def TitanSystem.new : TitanSystem :=
  { systemArmed := false
    currentMode := "Day"
    sensorNames := ["Front Door", "Living Room Motion", "Kitchen Heat"]
    sensorTypes := ["DoorSensor", "MotionSensor", "HeatSensor"]
    sensorData := [0, 0, 25]
    sensorLocations := ["Entry", "Living Room", "Kitchen"] }

/-- TitanSystem::setMode. -/
def TitanSystem.setMode (self : TitanSystem) (mode : String) :
    TitanSystem × List Action :=
  if mode = "Day" ∨ mode = "Night" ∨ mode = "Away" then
    let self1 := { self with currentMode := mode }
    let out := [Action.print ("[System] Mode set to: " ++ mode)]
    if mode = "Away" then
      ({ self1 with systemArmed := true }, out)
    else
      (self1, out)
  else
    (self, [Action.print "[Error] Unknown mode."])

/-- The body of the loop of TitanSystem::pollSensors at index i, where name,
type and data are sensorNames[i], sensorTypes[i] and sensorData[i]. -/
def TitanSystem.pollSensor (self : TitanSystem) (i : Nat) (name type : String)
    (data : Int) : List Action :=
  if type = "DoorSensor" then
    if data = 1 ∧ self.systemArmed = true then
      [Action.print ("Reading " ++ name ++ "... " ++ "! Triggering Alarm!"),
       Action.triggerAlarm "High" "Police"]
    else
      [Action.print ("Reading " ++ name ++ "... " ++ "Secure.")]
  else if type = "MotionSensor" then
    if data = 1 ∧ self.currentMode = "Away" then
      [Action.print ("Reading " ++ name ++ "... " ++ "MOTION DETECTED!"),
       Action.triggerAlarm "Medium" "UserPhone"]
    else
      [Action.print ("Reading " ++ name ++ "... " ++ "No Motion.")]
  else if type = "HeatSensor" then
    if data > 50 then
      [Action.print ("Reading " ++ name ++ "... Temp: " ++ toString data ++ "C. "
          ++ "DANGER! FIRE!"),
       Action.triggerAlarm "Critical" "FireDept"]
    else
      [Action.print ("Reading " ++ name ++ "... Temp: " ++ toString data ++ "C. "
          ++ "Normal.")]
  else
    [Action.print ("[Warning] Unknown sensor type found in index " ++ toString i)]

/-- The loop of TitanSystem::pollSensors: i runs from 0 up to
sensorNames.size().  The vectors have one length in every state the class can
reach; a subscript past the last element of a shorter vector (undefined in
C++) reads a fixed value here. -/
def TitanSystem.pollLoop (self : TitanSystem) : List Action :=
  (List.range self.sensorNames.length).flatMap fun i =>
    self.pollSensor i (self.sensorNames.getD i "") (self.sensorTypes.getD i "")
      (self.sensorData.getD i 0)

/-- TitanSystem::pollSensors. -/
def TitanSystem.pollSensors (self : TitanSystem) : TitanSystem × List Action :=
  (self,
   Action.print ("\n--- Polling Sensors (" ++ self.currentMode ++ " Mode) ---")
     :: self.pollLoop)

/-- TitanSystem::simulateSensorInput. -/
def TitanSystem.simulateSensorInput (self : TitanSystem) (index value : Int) :
    TitanSystem × List Action :=
  if index ≥ 0 ∧ toSizeT index < self.sensorData.length then
    ({ self with sensorData := self.sensorData.set (toSizeT index) value }, [])
  else
    (self, [])

/-- TitanSystem::logToFile: the file is system_log.txt, opened for appending. -/
def TitanSystem.logToFile (env : LogEnv) (message : String) : List Event :=
  if env.is_open then
    [Event.fileAppend "system_log.txt" (env.ctime ++ " - " ++ message ++ "\n")]
  else
    [Event.cerr "Failed to write to log file."]

/-- The notification step of TitanSystem::triggerAlarm (the second of its
three inline steps): an if chain with no final else. -/
def TitanSystem.notification (notifyWho : String) : List Event :=
  if notifyWho = "Police" then
    [Event.cout "Dialing 911..."]
  else if notifyWho = "FireDept" then
    [Event.cout "Dialing Fire Department..."]
  else if notifyWho = "UserPhone" then
    [Event.cout "Sending Push Notification to User..."]
  else
    []

/-- TitanSystem::triggerAlarm: header, sound logic, notification logic,
logging, all inline. -/
def TitanSystem.triggerAlarm (env : LogEnv) (severity notifyWho : String) : List Event :=
  [Event.cout ("!!! ALARM TRIGGERED [" ++ severity ++ "] !!!")]
    ++ (if severity = "High" ∨ severity = "Critical" then
          [Event.cout ">>> PLAYING LOUD SIREN SOUND <<<"]
        else
          [Event.cout ">>> Beeping Keypad <<<"])
    ++ TitanSystem.notification notifyWho
    ++ TitanSystem.logToFile env ("ALARM: " ++ severity ++ " sent to " ++ notifyWho)

/-- TitanSystem::generateReport. -/
def TitanSystem.generateReport (self : TitanSystem) : TitanSystem × List Action :=
  (self,
   [Action.print "\nGenerating System Report...",
    Action.print ("Sensors Online: " ++ toString self.sensorNames.length),
    Action.print ("System Armed: " ++ (if self.systemArmed then "YES" else "NO"))])

/-! ## Sequences of calls -/

/-- A call of one of the three public operations that change or read the
state. -/
inductive Call where
  | setMode (mode : String)
  | simulateSensorInput (index : Int) (value : Int)
  | pollSensors
  deriving DecidableEq, Repr

/-- One call on a TitanSecurity object. -/
def TitanSecurity.call (self : TitanSecurity) : Call → TitanSecurity × List Action
  | Call.setMode mode => self.setMode mode
  | Call.simulateSensorInput index value => self.simulateSensorInput index value
  | Call.pollSensors => self.pollSensors

/-- A sequence of calls on a TitanSecurity object, with everything they did. -/
def TitanSecurity.run (self : TitanSecurity) : List Call → TitanSecurity × List Action
  | [] => (self, [])
  | c :: rest =>
    let r := self.call c
    let rs := TitanSecurity.run r.1 rest
    (rs.1, r.2 ++ rs.2)

/-- One call on a TitanSystem object. -/
def TitanSystem.call (self : TitanSystem) : Call → TitanSystem × List Action
  | Call.setMode mode => self.setMode mode
  | Call.simulateSensorInput index value => self.simulateSensorInput index value
  | Call.pollSensors => self.pollSensors

/-- A sequence of calls on a TitanSystem object, with everything they did. -/
def TitanSystem.run (self : TitanSystem) : List Call → TitanSystem × List Action
  | [] => (self, [])
  | c :: rest =>
    let r := self.call c
    let rs := TitanSystem.run r.1 rest
    (rs.1, r.2 ++ rs.2)

/-- The controller's actions carried out by a dispatcher: a print is a line on
std::cout, a triggerAlarm call is whatever the dispatcher does; the k-th call
of the dispatcher meets the environment env k. -/
def perform (dispatch : LogEnv → String → String → List Event) (env : Nat → LogEnv) :
    Nat → List Action → List Event
  | _, [] => []
  | k, Action.print line :: rest => Event.cout line :: perform dispatch env k rest
  | k, Action.triggerAlarm severity sendWho :: rest =>
    dispatch (env k) severity sendWho ++ perform dispatch env (k + 1) rest

/-! ## Reading a trace -/

/-- The lines written to std::cout, in order. -/
def console : List Event → List String
  | [] => []
  | Event.cout text :: rest => text :: console rest
  | Event.cerr _ :: rest => console rest
  | Event.fileAppend _ _ :: rest => console rest

/-- The lines written to std::cerr, in order. -/
def errors : List Event → List String
  | [] => []
  | Event.cout _ :: rest => errors rest
  | Event.cerr text :: rest => text :: errors rest
  | Event.fileAppend _ _ :: rest => errors rest

/-- The (file, text) pairs appended to files, in order. -/
def appended : List Event → List (String × String)
  | [] => []
  | Event.cout _ :: rest => appended rest
  | Event.cerr _ :: rest => appended rest
  | Event.fileAppend file text :: rest => (file, text) :: appended rest

/-- The line feed character. -/
def newline : Char := Char.ofNat 10

/-- The number of line feeds in a text. -/
def lineBreaks (text : String) : Nat :=
  text.data.count newline

/-- A text that is one line of a text file: it ends in a line feed and has no
other. -/
def IsSingleLine (text : String) : Prop :=
  lineBreaks text = 1 ∧ text.data.getLast? = some newline

instance (text : String) : Decidable (IsSingleLine text) := by
  unfold IsSingleLine
  exact inferInstance

/-! ## The demo (main.cpp) -/

/-- A statement of main: a line main prints itself, or a call on the object
homeSecurity. -/
inductive Stmt where
  | print (line : String)
  | generateReport
  | call (c : Call)
  deriving DecidableEq, Repr

/-- Lines 9 to 17 of main.cpp: banner, initial report, setMode("Away"). -/
def Main.setup : List Stmt :=
  [Stmt.print "--- Titan Security System v2.0 (Refactored) ---\n",
   Stmt.print "[INITIAL STATE]",
   Stmt.generateReport,
   Stmt.print "\n[SETTING MODE]",
   Stmt.call (Call.setMode "Away")]

/-- Lines 20 and 21 of main.cpp (scenario A of the specification). -/
def Main.scenario1 : List Stmt :=
  [Stmt.print "\n[SCENARIO 1: Normal Check]",
   Stmt.call Call.pollSensors]

/-- Lines 24 to 26 of main.cpp (scenario B). -/
def Main.scenario2 : List Stmt :=
  [Stmt.print "\n[SCENARIO 2: Intruder breaks open the front door...]",
   Stmt.call (Call.simulateSensorInput 0 1),
   Stmt.call Call.pollSensors]

/-- Lines 29 to 32 of main.cpp (scenario C). -/
def Main.scenario3 : List Stmt :=
  [Stmt.print "\n[SCENARIO 3: Door closed, but motion detected...]",
   Stmt.call (Call.simulateSensorInput 0 0),
   Stmt.call (Call.simulateSensorInput 1 1),
   Stmt.call Call.pollSensors]

/-- Lines 35 to 37 of main.cpp (scenario D). -/
def Main.scenario4 : List Stmt :=
  [Stmt.print "\n[SCENARIO 4: Kitchen catches fire...]",
   Stmt.call (Call.simulateSensorInput 2 60),
   Stmt.call Call.pollSensors]

/-- Lines 40 and 41 of main.cpp: the final report. -/
def Main.report : List Stmt :=
  [Stmt.print "\n[FINAL STATE]",
   Stmt.generateReport]

/-- Lines 44 to 47 of main.cpp (scenario E). -/
def Main.scenario5 : List Stmt :=
  [Stmt.print "\n[SCENARIO 5: Switching to Day mode...]",
   Stmt.call (Call.setMode "Day"),
   Stmt.call (Call.simulateSensorInput 1 1),
   Stmt.call Call.pollSensors]

/-- The body of the try block of main, lines 9 to 49. -/
def Main.body : List Stmt :=
  Main.setup ++ Main.scenario1 ++ Main.scenario2 ++ Main.scenario3 ++ Main.scenario4
    ++ Main.report ++ Main.scenario5 ++ [Stmt.print "\n--- System Test Complete ---"]

/-- One statement of main on the object. -/
def Stmt.exec (self : TitanSecurity) : Stmt → TitanSecurity × List Action
  | Stmt.print line => (self, [Action.print line])
  | Stmt.generateReport => self.generateReport
  | Stmt.call c => self.call c

/-- Statements of main run in order: the object afterwards and everything
printed or requested. -/
def Main.exec (self : TitanSecurity) : List Stmt → TitanSecurity × List Action
  | [] => (self, [])
  | st :: rest =>
    let r := Stmt.exec self st
    let rs := Main.exec r.1 rest
    (rs.1, r.2 ++ rs.2)

/-- The output of each pollSensors call made while the statements run, one
list per call, in order. -/
def Main.polls (self : TitanSecurity) : List Stmt → List (List Action)
  | [] => []
  | Stmt.call Call.pollSensors :: rest =>
    self.pollSensors.2 :: Main.polls self.pollSensors.1 rest
  | st :: rest => Main.polls (Stmt.exec self st).1 rest

/-! ## The two implementations side by side -/

/-- A TitanSecurity object with the registry the constructor builds, in the
given mode, with the given armed flag and readings. -/
def TitanSecurity.starter (mode : String) (armed : Bool) (door motion heat : Int) :
    TitanSecurity :=
  { systemArmed := armed
    currentMode := mode
    Sensors :=
      [ { dynamicType := SensorClass.DoorSensor, sensorName := "Front Door",
          sensorLocation := "Entry", data := door },
        { dynamicType := SensorClass.MotionSensor, sensorName := "Living Room Motion",
          sensorLocation := "Living Room", data := motion },
        { dynamicType := SensorClass.HeatSensor, sensorName := "Kitchen Heat",
          sensorLocation := "Kitchen", data := heat } ] }

/-- A TitanSystem object with the registry the constructor builds, in the
given mode, with the given armed flag and readings. -/
def TitanSystem.starter (mode : String) (armed : Bool) (door motion heat : Int) :
    TitanSystem :=
  { systemArmed := armed
    currentMode := mode
    sensorNames := ["Front Door", "Living Room Motion", "Kitchen Heat"]
    sensorTypes := ["DoorSensor", "MotionSensor", "HeatSensor"]
    sensorData := [door, motion, heat]
    sensorLocations := ["Entry", "Living Room", "Kitchen"] }

/-- An event with the name of the log file left out: the two implementations
log to different files (info.txt and system_log.txt). -/
def Event.unfiled : Event → Event
  | Event.cout text => Event.cout text
  | Event.cerr text => Event.cerr text
  | Event.fileAppend _ text => Event.fileAppend "" text

/-! ## The evaluation rules -/

/-- C1 (Door rule).  For every reading, mode and armed flag, in both
implementations: the loop body on a Door sensor requests exactly the alarm
("High", "Police") if and only if the reading is 1 and the system is armed,
it requests nothing at all if and only if that condition fails, and it then
does nothing but print the line that ends in "Secure.".  A whole pollSensors
call on a registry holding just that sensor requests the alarm under the same
condition. -/
theorem door_rule (ts : TitanSecurity) (legacy : TitanSystem) (i : Nat)
    (name location : String) (data : Int) (armed : Bool) (mode : String) :
    (requests (ts.pollSensor i ⟨SensorClass.DoorSensor, name, location, data⟩)
        = [("High", "Police")] ↔ data = 1 ∧ ts.systemArmed = true) ∧
    (requests (ts.pollSensor i ⟨SensorClass.DoorSensor, name, location, data⟩) = []
        ↔ ¬(data = 1 ∧ ts.systemArmed = true)) ∧
    (ts.pollSensor i ⟨SensorClass.DoorSensor, name, location, data⟩
        = [Action.print ("Reading " ++ name ++ "... " ++ "Secure.")]
        ↔ ¬(data = 1 ∧ ts.systemArmed = true)) ∧
    (requests (legacy.pollSensor i name "DoorSensor" data)
        = [("High", "Police")] ↔ data = 1 ∧ legacy.systemArmed = true) ∧
    (requests (legacy.pollSensor i name "DoorSensor" data) = []
        ↔ ¬(data = 1 ∧ legacy.systemArmed = true)) ∧
    (legacy.pollSensor i name "DoorSensor" data
        = [Action.print ("Reading " ++ name ++ "... " ++ "Secure.")]
        ↔ ¬(data = 1 ∧ legacy.systemArmed = true)) ∧
    (requests (TitanSecurity.pollSensors
        ⟨[⟨SensorClass.DoorSensor, name, location, data⟩], armed, mode⟩).2
        = [("High", "Police")] ↔ data = 1 ∧ armed = true) ∧
    (requests (TitanSystem.pollSensors
        ⟨[name], ["DoorSensor"], [data], [location], armed, mode⟩).2
        = [("High", "Police")] ↔ data = 1 ∧ armed = true) := by
  refine ⟨?_, ?_, ?_, ?_, ?_, ?_, ?_, ?_⟩
  · by_cases h : data = 1 ∧ ts.systemArmed = true <;>
      simp [TitanSecurity.pollSensor, requests, h]
  · by_cases h : data = 1 ∧ ts.systemArmed = true <;>
      simp [TitanSecurity.pollSensor, requests, h]
  · by_cases h : data = 1 ∧ ts.systemArmed = true <;>
      simp [TitanSecurity.pollSensor, h]
  · by_cases h : data = 1 ∧ legacy.systemArmed = true <;>
      simp [TitanSystem.pollSensor, requests, h]
  · by_cases h : data = 1 ∧ legacy.systemArmed = true <;>
      simp [TitanSystem.pollSensor, requests, h]
  · by_cases h : data = 1 ∧ legacy.systemArmed = true <;>
      simp [TitanSystem.pollSensor, h]
  · by_cases h : data = 1 ∧ armed = true <;>
      simp [TitanSecurity.pollSensors, TitanSecurity.pollLoop, TitanSecurity.pollSensor,
        requests, h]
  · by_cases h : data = 1 ∧ armed = true <;>
      simp [TitanSystem.pollSensors, TitanSystem.pollLoop, TitanSystem.pollSensor,
        List.range_succ, requests, h]

/-- C2 (Motion rule).  For every reading, mode and armed flag, in both
implementations: the loop body on a Motion sensor requests exactly the alarm
("Medium", "UserPhone") if and only if the reading is 1 and the mode is
"Away", and requests nothing if and only if that fails; the armed flag does
not enter (replacing it by any value leaves the body's actions as they were),
and in mode "Night" a reading of 1 requests nothing.  A whole pollSensors call
on a registry holding just that sensor requests the alarm under the same
condition. -/
theorem motion_rule (ts : TitanSecurity) (legacy : TitanSystem) (i : Nat)
    (name location : String) (data : Int) (armed : Bool) :
    (requests (ts.pollSensor i ⟨SensorClass.MotionSensor, name, location, data⟩)
        = [("Medium", "UserPhone")] ↔ data = 1 ∧ ts.currentMode = "Away") ∧
    (requests (ts.pollSensor i ⟨SensorClass.MotionSensor, name, location, data⟩) = []
        ↔ ¬(data = 1 ∧ ts.currentMode = "Away")) ∧
    (ts.pollSensor i ⟨SensorClass.MotionSensor, name, location, data⟩
        = [Action.print ("Reading " ++ name ++ "... " ++ "No Motion.")]
        ↔ ¬(data = 1 ∧ ts.currentMode = "Away")) ∧
    TitanSecurity.pollSensor { ts with systemArmed := armed } i
        ⟨SensorClass.MotionSensor, name, location, data⟩
      = ts.pollSensor i ⟨SensorClass.MotionSensor, name, location, data⟩ ∧
    requests (TitanSecurity.pollSensor { ts with currentMode := "Night" } i
        ⟨SensorClass.MotionSensor, name, location, 1⟩) = [] ∧
    (requests (legacy.pollSensor i name "MotionSensor" data)
        = [("Medium", "UserPhone")] ↔ data = 1 ∧ legacy.currentMode = "Away") ∧
    (requests (legacy.pollSensor i name "MotionSensor" data) = []
        ↔ ¬(data = 1 ∧ legacy.currentMode = "Away")) ∧
    (legacy.pollSensor i name "MotionSensor" data
        = [Action.print ("Reading " ++ name ++ "... " ++ "No Motion.")]
        ↔ ¬(data = 1 ∧ legacy.currentMode = "Away")) ∧
    TitanSystem.pollSensor { legacy with systemArmed := armed } i name "MotionSensor" data
      = legacy.pollSensor i name "MotionSensor" data ∧
    requests (TitanSystem.pollSensor { legacy with currentMode := "Night" } i name
        "MotionSensor" 1) = [] ∧
    (requests (TitanSecurity.pollSensors
        ⟨[⟨SensorClass.MotionSensor, name, location, data⟩], armed, mode⟩).2
        = [("Medium", "UserPhone")] ↔ data = 1 ∧ mode = "Away") ∧
    (requests (TitanSystem.pollSensors
        ⟨[name], ["MotionSensor"], [data], [location], armed, mode⟩).2
        = [("Medium", "UserPhone")] ↔ data = 1 ∧ mode = "Away") := by
  refine ⟨?_, ?_, ?_, ?_, ?_, ?_, ?_, ?_, ?_, ?_, ?_, ?_⟩
  · by_cases h : data = 1 ∧ ts.currentMode = "Away" <;>
      simp [TitanSecurity.pollSensor, requests, h]
  · by_cases h : data = 1 ∧ ts.currentMode = "Away" <;>
      simp [TitanSecurity.pollSensor, requests, h]
  · by_cases h : data = 1 ∧ ts.currentMode = "Away" <;>
      simp [TitanSecurity.pollSensor, h]
  · simp [TitanSecurity.pollSensor]
  · simp [TitanSecurity.pollSensor, requests]
  · by_cases h : data = 1 ∧ legacy.currentMode = "Away" <;>
      simp [TitanSystem.pollSensor, requests, h]
  · by_cases h : data = 1 ∧ legacy.currentMode = "Away" <;>
      simp [TitanSystem.pollSensor, requests, h]
  · by_cases h : data = 1 ∧ legacy.currentMode = "Away" <;>
      simp [TitanSystem.pollSensor, h]
  · simp [TitanSystem.pollSensor]
  · simp [TitanSystem.pollSensor, requests]
  · by_cases h : data = 1 ∧ mode = "Away" <;>
      simp [TitanSecurity.pollSensors, TitanSecurity.pollLoop, TitanSecurity.pollSensor,
        requests, h]
  · by_cases h : data = 1 ∧ mode = "Away" <;>
      simp [TitanSystem.pollSensors, TitanSystem.pollLoop, TitanSystem.pollSensor,
        List.range_succ, requests, h]

/-- C3 (Heat rule).  For every reading, mode and armed flag, in both
implementations: the loop body on a Heat sensor requests exactly the alarm
("Critical", "FireDept") if and only if the reading exceeds 50, and requests
nothing if and only if it does not; the mode and the armed flag do not enter
(replacing both leaves the body's actions as they were); a reading of 50
requests nothing and a reading of 51 requests the alarm.  A whole pollSensors
call on a registry holding just that sensor requests the alarm under the same
condition. -/
theorem heat_rule (ts : TitanSecurity) (legacy : TitanSystem) (i : Nat)
    (name location : String) (data : Int) (armed : Bool) (mode : String) :
    (requests (ts.pollSensor i ⟨SensorClass.HeatSensor, name, location, data⟩)
        = [("Critical", "FireDept")] ↔ data > 50) ∧
    (requests (ts.pollSensor i ⟨SensorClass.HeatSensor, name, location, data⟩) = []
        ↔ ¬ data > 50) ∧
    (ts.pollSensor i ⟨SensorClass.HeatSensor, name, location, data⟩
        = [Action.print ("Reading " ++ name ++ "... Temp: " ++ toString data ++ "C. "
            ++ "Normal.")]
        ↔ ¬ data > 50) ∧
    TitanSecurity.pollSensor { ts with systemArmed := armed, currentMode := mode } i
        ⟨SensorClass.HeatSensor, name, location, data⟩
      = ts.pollSensor i ⟨SensorClass.HeatSensor, name, location, data⟩ ∧
    requests (ts.pollSensor i ⟨SensorClass.HeatSensor, name, location, 50⟩) = [] ∧
    requests (ts.pollSensor i ⟨SensorClass.HeatSensor, name, location, 51⟩)
      = [("Critical", "FireDept")] ∧
    (requests (legacy.pollSensor i name "HeatSensor" data)
        = [("Critical", "FireDept")] ↔ data > 50) ∧
    (requests (legacy.pollSensor i name "HeatSensor" data) = [] ↔ ¬ data > 50) ∧
    (legacy.pollSensor i name "HeatSensor" data
        = [Action.print ("Reading " ++ name ++ "... Temp: " ++ toString data ++ "C. "
            ++ "Normal.")]
        ↔ ¬ data > 50) ∧
    TitanSystem.pollSensor { legacy with systemArmed := armed, currentMode := mode } i
        name "HeatSensor" data
      = legacy.pollSensor i name "HeatSensor" data ∧
    requests (legacy.pollSensor i name "HeatSensor" 50) = [] ∧
    requests (legacy.pollSensor i name "HeatSensor" 51) = [("Critical", "FireDept")] ∧
    (requests (TitanSecurity.pollSensors
        ⟨[⟨SensorClass.HeatSensor, name, location, data⟩], armed, mode⟩).2
        = [("Critical", "FireDept")] ↔ data > 50) ∧
    (requests (TitanSystem.pollSensors
        ⟨[name], ["HeatSensor"], [data], [location], armed, mode⟩).2
        = [("Critical", "FireDept")] ↔ data > 50) := by
  refine ⟨?_, ?_, ?_, ?_, ?_, ?_, ?_, ?_, ?_, ?_, ?_, ?_, ?_, ?_⟩
  · by_cases h : data > 50 <;> simp [TitanSecurity.pollSensor, requests, h]
  · by_cases h : data > 50 <;> simp [TitanSecurity.pollSensor, requests, h]
  · by_cases h : data > 50 <;> simp [TitanSecurity.pollSensor, h]
  · simp [TitanSecurity.pollSensor]
  · simp [TitanSecurity.pollSensor, requests]
  · simp [TitanSecurity.pollSensor, requests]
  · by_cases h : data > 50 <;> simp [TitanSystem.pollSensor, requests, h]
  · by_cases h : data > 50 <;> simp [TitanSystem.pollSensor, requests, h]
  · by_cases h : data > 50 <;> simp [TitanSystem.pollSensor, h]
  · simp [TitanSystem.pollSensor]
  · simp [TitanSystem.pollSensor, requests]
  · simp [TitanSystem.pollSensor, requests]
  · by_cases h : data > 50 <;>
      simp [TitanSecurity.pollSensors, TitanSecurity.pollLoop, TitanSecurity.pollSensor,
        requests, h]
  · by_cases h : data > 50 <;>
      simp [TitanSystem.pollSensors, TitanSystem.pollLoop, TitanSystem.pollSensor,
        List.range_succ, requests, h]

/-! ## Mode and arming -/

/-- C4 (setMode of the refactored controller).  From every prior state:
setMode("Away") leaves mode "Away" and the armed flag true; setMode("Day") and
setMode("Night") leave the requested mode and the armed flag false, also when
the prior state was armed; none of the three touches the registry. -/
theorem setMode_valid (ts : TitanSecurity) :
    ((ts.setMode "Away").1.currentMode = "Away" ∧
      (ts.setMode "Away").1.systemArmed = true ∧
      (ts.setMode "Away").1.Sensors = ts.Sensors) ∧
    ((ts.setMode "Day").1.currentMode = "Day" ∧
      (ts.setMode "Day").1.systemArmed = false ∧
      (ts.setMode "Day").1.Sensors = ts.Sensors) ∧
    ((ts.setMode "Night").1.currentMode = "Night" ∧
      (ts.setMode "Night").1.systemArmed = false ∧
      (ts.setMode "Night").1.Sensors = ts.Sensors) ∧
    (TitanSecurity.setMode { ts with systemArmed := true } "Day").1.systemArmed = false ∧
    (TitanSecurity.setMode { ts with systemArmed := true } "Night").1.systemArmed = false := by
  simp [TitanSecurity.setMode]

/-- C5 (invalid mode).  In both implementations and for every string: setMode
returns the state it was given together with the single line
"[Error] Unknown mode." if and only if the string is none of "Day", "Night",
"Away"; that line is printed for no valid mode; "away" and the empty string are
rejected. -/
theorem setMode_invalid (ts : TitanSecurity) (legacy : TitanSystem) (mode : String) :
    (ts.setMode mode = (ts, [Action.print "[Error] Unknown mode."])
        ↔ ¬(mode = "Day" ∨ mode = "Night" ∨ mode = "Away")) ∧
    (Action.print "[Error] Unknown mode." ∈ (ts.setMode mode).2
        ↔ ¬(mode = "Day" ∨ mode = "Night" ∨ mode = "Away")) ∧
    ts.setMode "away" = (ts, [Action.print "[Error] Unknown mode."]) ∧
    ts.setMode "" = (ts, [Action.print "[Error] Unknown mode."]) ∧
    (legacy.setMode mode = (legacy, [Action.print "[Error] Unknown mode."])
        ↔ ¬(mode = "Day" ∨ mode = "Night" ∨ mode = "Away")) ∧
    (Action.print "[Error] Unknown mode." ∈ (legacy.setMode mode).2
        ↔ ¬(mode = "Day" ∨ mode = "Night" ∨ mode = "Away")) ∧
    legacy.setMode "away" = (legacy, [Action.print "[Error] Unknown mode."]) ∧
    legacy.setMode "" = (legacy, [Action.print "[Error] Unknown mode."]) := by
  refine ⟨?_, ?_, ?_, ?_, ?_, ?_, ?_, ?_⟩
  · by_cases h : mode = "Day" ∨ mode = "Night" ∨ mode = "Away"
    · rcases h with h | h | h <;> subst h <;> simp [TitanSecurity.setMode]
    · simp [TitanSecurity.setMode, h]
  · by_cases h : mode = "Day" ∨ mode = "Night" ∨ mode = "Away"
    · rcases h with h | h | h <;> subst h <;> simp [TitanSecurity.setMode]
    · simp [TitanSecurity.setMode, h]
  · simp [TitanSecurity.setMode]
  · simp [TitanSecurity.setMode]
  · by_cases h : mode = "Day" ∨ mode = "Night" ∨ mode = "Away"
    · rcases h with h | h | h <;> subst h <;> simp [TitanSystem.setMode]
    · simp [TitanSystem.setMode, h]
  · by_cases h : mode = "Day" ∨ mode = "Night" ∨ mode = "Away"
    · rcases h with h | h | h <;> subst h <;> simp [TitanSystem.setMode]
    · simp [TitanSystem.setMode, h]
  · simp [TitanSystem.setMode]
  · simp [TitanSystem.setMode]

/-! ## Simulated input -/

/-- For an index that is not negative and fits an int, the conversion to
size_t is the identity. -/
theorem toSizeT_of_nonneg (index : Int) (h0 : 0 ≤ index) (hhi : index ≤ 2147483647) :
    toSizeT index = index.toNat := by
  unfold toSizeT
  omega

/-- Modifying one entry by a function that keeps a field keeps the list of
that field. -/
theorem map_modify_of_fixed {α β : Type} (g : α → β) (f : α → α)
    (h : ∀ a, g (f a) = g a) (n : Nat) (l : List α) :
    (List.modify f n l).map g = l.map g := by
  apply List.ext_getElem?
  intro m
  simp only [List.getElem?_map, List.getElem?_modify]
  cases l[m]? with
  | none => rfl
  | some a => by_cases hnm : n = m <;> simp [hnm, h]

/-- Modifying one entry by setData sets that entry of the list of readings. -/
theorem map_data_modify_setData (value : Int) (n : Nat) (l : List Sensor) :
    (List.modify (fun sensor => sensor.setData value) n l).map Sensor.data
      = (l.map Sensor.data).set n value := by
  apply List.ext_getElem?
  intro m
  simp only [List.getElem?_map, List.getElem?_modify, List.getElem?_set, List.length_map]
  by_cases hnm : n = m
  · subst hnm
    by_cases hlen : n < l.length
    · simp [hlen, List.getElem?_eq_getElem, Sensor.setData]
    · have : l[n]? = none := List.getElem?_eq_none (by omega)
      simp [hlen, this]
  · cases l[m]? <;> simp [hnm]

/-- C6 (simulateSensorInput).  For every int index and every value: the call
prints nothing and leaves the mode, the armed flag and every sensor's name,
location and class as they were; when 0 <= index < number of sensors the
readings afterwards are the readings before with the one at index replaced by
value (whatever value is); when index is negative or at least the number of
sensors the whole state is unchanged.  The original TitanSystem does the same
on its vector of readings. -/
theorem simulateSensorInput_frame (ts : TitanSecurity) (legacy : TitanSystem)
    (index value : Int) (hint : -2147483648 ≤ index ∧ index ≤ 2147483647) :
    ((ts.simulateSensorInput index value).2 = [] ∧
      (ts.simulateSensorInput index value).1.systemArmed = ts.systemArmed ∧
      (ts.simulateSensorInput index value).1.currentMode = ts.currentMode ∧
      (ts.simulateSensorInput index value).1.Sensors.map Sensor.sensorName
        = ts.Sensors.map Sensor.sensorName ∧
      (ts.simulateSensorInput index value).1.Sensors.map Sensor.sensorLocation
        = ts.Sensors.map Sensor.sensorLocation ∧
      (ts.simulateSensorInput index value).1.Sensors.map Sensor.dynamicType
        = ts.Sensors.map Sensor.dynamicType) ∧
    (0 ≤ index ∧ index < ts.Sensors.length →
      (ts.simulateSensorInput index value).1.Sensors.map Sensor.data
        = (ts.Sensors.map Sensor.data).set index.toNat value) ∧
    (index < 0 ∨ (ts.Sensors.length : Int) ≤ index →
      ts.simulateSensorInput index value = (ts, [])) ∧
    ((legacy.simulateSensorInput index value).2 = [] ∧
      (legacy.simulateSensorInput index value).1.systemArmed = legacy.systemArmed ∧
      (legacy.simulateSensorInput index value).1.currentMode = legacy.currentMode ∧
      (legacy.simulateSensorInput index value).1.sensorNames = legacy.sensorNames ∧
      (legacy.simulateSensorInput index value).1.sensorLocations = legacy.sensorLocations ∧
      (legacy.simulateSensorInput index value).1.sensorTypes = legacy.sensorTypes) ∧
    (0 ≤ index ∧ index < legacy.sensorData.length →
      (legacy.simulateSensorInput index value).1.sensorData
        = legacy.sensorData.set index.toNat value) ∧
    (index < 0 ∨ (legacy.sensorData.length : Int) ≤ index →
      legacy.simulateSensorInput index value = (legacy, [])) := by
  refine ⟨?_, ?_, ?_, ?_, ?_, ?_⟩
  · unfold TitanSecurity.simulateSensorInput
    split
    · exact ⟨rfl, rfl, rfl,
        map_modify_of_fixed Sensor.sensorName (fun sensor => sensor.setData value)
          (fun _ => rfl) _ _,
        map_modify_of_fixed Sensor.sensorLocation (fun sensor => sensor.setData value)
          (fun _ => rfl) _ _,
        map_modify_of_fixed Sensor.dynamicType (fun sensor => sensor.setData value)
          (fun _ => rfl) _ _⟩
    · exact ⟨rfl, rfl, rfl, rfl, rfl, rfl⟩
  · intro hin
    have hconv := toSizeT_of_nonneg index hin.1 hint.2
    have hcond : index ≥ 0 ∧ toSizeT index < ts.Sensors.length := by
      refine ⟨hin.1, ?_⟩
      rw [hconv]
      omega
    rw [TitanSecurity.simulateSensorInput, if_pos hcond, hconv]
    exact map_data_modify_setData value index.toNat ts.Sensors
  · intro hout
    have hcond : ¬(index ≥ 0 ∧ toSizeT index < ts.Sensors.length) := by
      rintro ⟨h0, hlt⟩
      rw [toSizeT_of_nonneg index h0 hint.2] at hlt
      omega
    rw [TitanSecurity.simulateSensorInput, if_neg hcond]
  · unfold TitanSystem.simulateSensorInput
    split <;> exact ⟨rfl, rfl, rfl, rfl, rfl, rfl⟩
  · intro hin
    have hconv := toSizeT_of_nonneg index hin.1 hint.2
    have hcond : index ≥ 0 ∧ toSizeT index < legacy.sensorData.length := by
      refine ⟨hin.1, ?_⟩
      rw [hconv]
      omega
    rw [TitanSystem.simulateSensorInput, if_pos hcond, hconv]
  · intro hout
    have hcond : ¬(index ≥ 0 ∧ toSizeT index < legacy.sensorData.length) := by
      rintro ⟨h0, hlt⟩
      rw [toSizeT_of_nonneg index h0 hint.2] at hlt
      omega
    rw [TitanSystem.simulateSensorInput, if_neg hcond]

/-- Witness for C6 on the starter registry: index 0 and value 1 are an int
index in range, and the readings 0, 0, 25 become 1, 0, 25. -/
theorem simulateSensorInput_frame_witness :
    (-2147483648 ≤ (0 : Int) ∧ (0 : Int) ≤ 2147483647) ∧
    (TitanSecurity.new.simulateSensorInput 0 1).1.Sensors.map Sensor.data = [1, 0, 25] ∧
    (TitanSystem.new.simulateSensorInput 0 1).1.sensorData = [1, 0, 25] :=
  ⟨by decide,
   by simpa [TitanSecurity.new] using
     (simulateSensorInput_frame TitanSecurity.new TitanSystem.new 0 1 (by decide)).2.1
       (by decide),
   by simpa [TitanSystem.new] using
     (simulateSensorInput_frame TitanSecurity.new TitanSystem.new 0 1 (by decide)).2.2.2.2.1
       (by decide)⟩

/-! ## The dispatcher -/

/-- C7 (dispatch order).  For every severity, recipient and log environment,
Alarm::triggerAlarm prints its header and then calls each sink exactly once, in
the order makeSound(severity), send(sendWho), logToFile(message): each call
contributes one event and the trace is header, sound, notify, log; the log
event is there whether or not the file opens and whatever the first two
printed.  TitanSystem::triggerAlarm runs the same three steps in the same
order: header, the sound line makeSound gives, its notification step (at most
one line), its log step (one event). -/
theorem triggerAlarm_order (env : LogEnv) (severity sendWho : String) :
    (∃ sound notify log,
      Sound.makeSound severity = [sound] ∧
      Notify.send sendWho = [notify] ∧
      Log.logToFile env ("ALARM: " ++ severity ++ " sent to " ++ sendWho) = [log] ∧
      Alarm.triggerAlarm env severity sendWho
        = [Event.cout ("!!! ALARM TRIGGERED [" ++ severity ++ "] !!!"), sound, notify, log]) ∧
    (∃ sound log,
      Sound.makeSound severity = [sound] ∧
      (TitanSystem.notification sendWho).length ≤ 1 ∧
      TitanSystem.logToFile env ("ALARM: " ++ severity ++ " sent to " ++ sendWho) = [log] ∧
      TitanSystem.triggerAlarm env severity sendWho
        = [Event.cout ("!!! ALARM TRIGGERED [" ++ severity ++ "] !!!"), sound]
            ++ TitanSystem.notification sendWho ++ [log]) := by
  constructor
  · have hs : ∃ sound, Sound.makeSound severity = [sound] := by
      unfold Sound.makeSound
      split <;> exact ⟨_, rfl⟩
    have hn : ∃ notify, Notify.send sendWho = [notify] := by
      unfold Notify.send
      split_ifs <;> exact ⟨_, rfl⟩
    have hl : ∃ log,
        Log.logToFile env ("ALARM: " ++ severity ++ " sent to " ++ sendWho) = [log] := by
      unfold Log.logToFile
      split <;> exact ⟨_, rfl⟩
    obtain ⟨sound, hs⟩ := hs
    obtain ⟨notify, hn⟩ := hn
    obtain ⟨log, hl⟩ := hl
    exact ⟨sound, notify, log, hs, hn, hl, by simp [Alarm.triggerAlarm, hs, hn, hl]⟩
  · have hs : ∃ sound, Sound.makeSound severity = [sound] := by
      unfold Sound.makeSound
      split <;> exact ⟨_, rfl⟩
    have hl : ∃ log,
        TitanSystem.logToFile env ("ALARM: " ++ severity ++ " sent to " ++ sendWho)
          = [log] := by
      unfold TitanSystem.logToFile
      split <;> exact ⟨_, rfl⟩
    have hn : (TitanSystem.notification sendWho).length ≤ 1 := by
      unfold TitanSystem.notification
      split_ifs <;> simp
    obtain ⟨sound, hs⟩ := hs
    obtain ⟨log, hl⟩ := hl
    refine ⟨sound, log, hs, hn, hl, ?_⟩
    have hsound : (if severity = "High" ∨ severity = "Critical" then
          [Event.cout ">>> PLAYING LOUD SIREN SOUND <<<"]
        else [Event.cout ">>> Beeping Keypad <<<"]) = [sound] := by
      rw [← hs, Sound.makeSound]
    simp [TitanSystem.triggerAlarm, hsound, hl]

/-- C8, as stated, fails on the original controller: with the recipient
"Guard" the notification step of TitanSystem::triggerAlarm prints nothing, so
the whole dispatch is header, siren, log record, with no diagnostic line, while
Notify::send prints "Invalid recipient". -/
theorem legacy_notification_no_diagnostic :
    TitanSystem.notification "Guard" = [] ∧
    TitanSystem.triggerAlarm ⟨true, "T"⟩ "High" "Guard"
      = [Event.cout "!!! ALARM TRIGGERED [High] !!!",
         Event.cout ">>> PLAYING LOUD SIREN SOUND <<<",
         Event.fileAppend "system_log.txt" "T - ALARM: High sent to Guard\n"] ∧
    Notify.send "Guard" = [Event.cout "Invalid recipient"] := by
  decide

/-- C8, amended.  Notify::send prints exactly one line for every recipient:
the 911 line for "Police", the fire-department line for "FireDept", the
push-notification line for "UserPhone", and "Invalid recipient" if and only if
the string is none of these.  The notification step of
TitanSystem::triggerAlarm prints the same line as Notify::send for each of the
three known recipients, prints at most one line for every string, and the log
step follows it for every string. -/
theorem notify_messages (env : LogEnv) (severity sendWho : String) :
    Notify.send "Police" = [Event.cout "Dialing 911..."] ∧
    Notify.send "FireDept" = [Event.cout "Dialing Fire Department..."] ∧
    Notify.send "UserPhone" = [Event.cout "Sending Push Notification to User..."] ∧
    (Notify.send sendWho = [Event.cout "Invalid recipient"]
      ↔ ¬(sendWho = "Police" ∨ sendWho = "FireDept" ∨ sendWho = "UserPhone")) ∧
    (∃ line, Notify.send sendWho = [Event.cout line]) ∧
    TitanSystem.notification "Police" = Notify.send "Police" ∧
    TitanSystem.notification "FireDept" = Notify.send "FireDept" ∧
    TitanSystem.notification "UserPhone" = Notify.send "UserPhone" ∧
    (TitanSystem.notification sendWho).length ≤ 1 ∧
    (TitanSystem.triggerAlarm env severity sendWho).getLast?
      = (TitanSystem.logToFile env
          ("ALARM: " ++ severity ++ " sent to " ++ sendWho)).head? := by
  refine ⟨by decide, by decide, by decide, ?_, ?_, by decide, by decide, by decide, ?_, ?_⟩
  · by_cases h : sendWho = "Police" ∨ sendWho = "FireDept" ∨ sendWho = "UserPhone"
    · rcases h with h | h | h <;> subst h <;> decide
    · have h1 : ¬ sendWho = "Police" := fun e => h (Or.inl e)
      have h2 : ¬ sendWho = "FireDept" := fun e => h (Or.inr (Or.inl e))
      have h3 : ¬ sendWho = "UserPhone" := fun e => h (Or.inr (Or.inr e))
      simp [Notify.send, h1, h2, h3]
  · unfold Notify.send
    split_ifs <;> exact ⟨_, rfl⟩
  · unfold TitanSystem.notification
    split_ifs <;> simp
  · unfold TitanSystem.triggerAlarm TitanSystem.logToFile
    split_ifs <;> simp <;> rw [← List.cons_append, List.getLast?_append] <;> simp

/-- C9 (sound).  For every severity string makeSound emits exactly one line:
the loud-siren line if and only if the string is "High" or "Critical", the
keypad-beep line if and only if it is neither; "Medium", "Low", the empty
string and "high" all beep.  The sound step of TitanSystem::triggerAlarm, which
follows its header, is the same line. -/
theorem makeSound_lines (env : LogEnv) (severity sendWho : String) :
    (Sound.makeSound severity = [Event.cout ">>> PLAYING LOUD SIREN SOUND <<<"]
      ↔ severity = "High" ∨ severity = "Critical") ∧
    (Sound.makeSound severity = [Event.cout ">>> Beeping Keypad <<<"]
      ↔ ¬(severity = "High" ∨ severity = "Critical")) ∧
    Sound.makeSound "Medium" = [Event.cout ">>> Beeping Keypad <<<"] ∧
    Sound.makeSound "Low" = [Event.cout ">>> Beeping Keypad <<<"] ∧
    Sound.makeSound "" = [Event.cout ">>> Beeping Keypad <<<"] ∧
    Sound.makeSound "high" = [Event.cout ">>> Beeping Keypad <<<"] ∧
    (TitanSystem.triggerAlarm env severity sendWho).take 2
      = Event.cout ("!!! ALARM TRIGGERED [" ++ severity ++ "] !!!")
          :: Sound.makeSound severity := by
  refine ⟨?_, ?_, by decide, by decide, by decide, by decide, ?_⟩
  · by_cases h : severity = "High" ∨ severity = "Critical" <;> simp [Sound.makeSound, h]
  · by_cases h : severity = "High" ∨ severity = "Critical" <;> simp [Sound.makeSound, h]
  · unfold TitanSystem.triggerAlarm Sound.makeSound
    split_ifs <;> simp

/-! ## The armed flag of the original controller -/

/-- No single call on a TitanSystem object clears the armed flag. -/
theorem TitanSystem.call_keeps_armed (self : TitanSystem) (c : Call)
    (h : self.systemArmed = true) : (self.call c).1.systemArmed = true := by
  cases c with
  | setMode mode =>
    simp only [TitanSystem.call, TitanSystem.setMode]
    split_ifs <;> simp [h]
  | simulateSensorInput index value =>
    simp only [TitanSystem.call, TitanSystem.simulateSensorInput]
    split_ifs <;> simp [h]
  | pollSensors => simpa [TitanSystem.call, TitanSystem.pollSensors] using h

/-- No sequence of calls on a TitanSystem object clears the armed flag. -/
theorem TitanSystem.run_keeps_armed (calls : List Call) :
    ∀ self : TitanSystem, self.systemArmed = true →
      (self.run calls).1.systemArmed = true := by
  induction calls with
  | nil => intro self h; simpa [TitanSystem.run] using h
  | cons c rest ih =>
    intro self h
    simp only [TitanSystem.run]
    exact ih _ (TitanSystem.call_keeps_armed self c h)

/-- C10 (the original controller never disarms).  TitanSystem::setMode never
clears the armed flag, and across every sequence of setMode,
simulateSensorInput and pollSensors calls an armed system stays armed.  After
setMode("Away") followed by setMode("Day") or by setMode("Night"), from any
state, the system is armed in mode "Day" or "Night": a Door reading of 1 then
requests ("High", "Police") and a Motion reading of 1 requests nothing. -/
theorem legacy_armed_sticky (legacy : TitanSystem) (calls : List Call) (mode : String)
    (i : Nat) (name : String) :
    (legacy.systemArmed = true → (legacy.setMode mode).1.systemArmed = true) ∧
    (legacy.systemArmed = true → (legacy.run calls).1.systemArmed = true) ∧
    ((legacy.run [Call.setMode "Away", Call.setMode "Day"]).1.systemArmed = true ∧
      (legacy.run [Call.setMode "Away", Call.setMode "Day"]).1.currentMode = "Day" ∧
      requests ((legacy.run [Call.setMode "Away", Call.setMode "Day"]).1.pollSensor
        i name "DoorSensor" 1) = [("High", "Police")] ∧
      requests ((legacy.run [Call.setMode "Away", Call.setMode "Day"]).1.pollSensor
        i name "MotionSensor" 1) = []) ∧
    ((legacy.run [Call.setMode "Away", Call.setMode "Night"]).1.systemArmed = true ∧
      (legacy.run [Call.setMode "Away", Call.setMode "Night"]).1.currentMode = "Night" ∧
      requests ((legacy.run [Call.setMode "Away", Call.setMode "Night"]).1.pollSensor
        i name "DoorSensor" 1) = [("High", "Police")] ∧
      requests ((legacy.run [Call.setMode "Away", Call.setMode "Night"]).1.pollSensor
        i name "MotionSensor" 1) = []) := by
  refine ⟨?_, ?_, ?_, ?_⟩
  · exact TitanSystem.call_keeps_armed legacy (Call.setMode mode)
  · exact TitanSystem.run_keeps_armed calls legacy
  · simp [TitanSystem.run, TitanSystem.call, TitanSystem.setMode, TitanSystem.pollSensor,
      requests]
  · simp [TitanSystem.run, TitanSystem.call, TitanSystem.setMode, TitanSystem.pollSensor,
      requests]

/-- Witness for C10 on the starter registry: armed by setMode("Away"), then
setMode("Day"), door opened, motion seen, invalid mode, poll: the system is
still armed, and with the door and motion readings at 1 a poll requests the
door alarm only. -/
theorem legacy_armed_sticky_witness :
    (TitanSystem.new.setMode "Away").1.systemArmed = true ∧
    ((TitanSystem.new.setMode "Away").1.run
      [Call.setMode "Day", Call.simulateSensorInput 0 1, Call.simulateSensorInput 1 1,
       Call.setMode "Off", Call.pollSensors]).1.systemArmed = true ∧
    requests ((TitanSystem.new.setMode "Away").1.run
      [Call.setMode "Day", Call.simulateSensorInput 0 1, Call.simulateSensorInput 1 1,
       Call.setMode "Off", Call.pollSensors]).2 = [("High", "Police")] :=
  ⟨by decide,
   (legacy_armed_sticky (TitanSystem.new.setMode "Away").1
      [Call.setMode "Day", Call.simulateSensorInput 0 1, Call.simulateSensorInput 1 1,
       Call.setMode "Off", Call.pollSensors] "Day" 0 "Front Door").2.1 (by decide),
   by decide⟩


/-! ## The log record -/

/-- Line feeds add up under concatenation. -/
theorem lineBreaks_append (a b : String) :
    lineBreaks (a ++ b) = lineBreaks a + lineBreaks b := by
  simp [lineBreaks, String.data_append, List.count_append]

/-- The text the log step writes, with the message spelt out. -/
theorem log_text_eq (timestamp severity sendWho : String) :
    timestamp ++ " - " ++ ("ALARM: " ++ severity ++ " sent to " ++ sendWho) ++ "\n"
      = timestamp ++ " - ALARM: " ++ severity ++ " sent to " ++ sendWho ++ "\n" := by
  have h : " - ALARM: " = " - " ++ "ALARM: " := by decide
  rw [h]
  simp only [String.append_assoc]

/-- C11 (the record is split in two by the clock text).  What the log step
does as the claim says: for every severity, recipient, clock text and outcome
of opening the file, one dispatch appends exactly one record when the file
opens, made of the clock text, " - ALARM: ", the severity, " sent to ", the
recipient and a line feed, and writes nothing to std::cerr; when the file does
not open it appends nothing and writes the one line
"Failed to write to log file." to std::cerr.  Where it breaks the claim: the
text std::ctime returns ends in a line feed and logToFile writes it unchanged
in front of " - ", so for every clock text, a stamp followed by a line feed,
the record holds at least two line feeds and is not a single line.  At the
clock text "Fri Oct 30 21:22:00 2026" with its line feed, the dispatch
("High", "Police") appends a record of two lines, to info.txt and, in
TitanSystem, to system_log.txt, where the claim has the one line
"Fri Oct 30 21:22:00 2026 - ALARM: High sent to Police". -/
theorem log_record_split (env : LogEnv) (stamp severity sendWho : String) :
    appended (Alarm.triggerAlarm env severity sendWho)
      = (if env.is_open = true then
          [("info.txt",
            env.ctime ++ " - ALARM: " ++ severity ++ " sent to " ++ sendWho ++ "\n")]
         else []) ∧
    errors (Alarm.triggerAlarm env severity sendWho)
      = (if env.is_open = true then [] else ["Failed to write to log file."]) ∧
    appended (Alarm.triggerAlarm ⟨true, stamp ++ "\n"⟩ severity sendWho)
      = [("info.txt",
          stamp ++ "\n" ++ " - ALARM: " ++ severity ++ " sent to " ++ sendWho ++ "\n")] ∧
    2 ≤ lineBreaks
      (stamp ++ "\n" ++ " - ALARM: " ++ severity ++ " sent to " ++ sendWho ++ "\n") ∧
    ¬ IsSingleLine
      (stamp ++ "\n" ++ " - ALARM: " ++ severity ++ " sent to " ++ sendWho ++ "\n") ∧
    appended (Alarm.triggerAlarm ⟨true, "Fri Oct 30 21:22:00 2026\n"⟩ "High" "Police")
      = [("info.txt", "Fri Oct 30 21:22:00 2026\n - ALARM: High sent to Police\n")] ∧
    appended (TitanSystem.triggerAlarm ⟨true, "Fri Oct 30 21:22:00 2026\n"⟩ "High" "Police")
      = [("system_log.txt", "Fri Oct 30 21:22:00 2026\n - ALARM: High sent to Police\n")] ∧
    lineBreaks "Fri Oct 30 21:22:00 2026\n - ALARM: High sent to Police\n" = 2 ∧
    ¬ IsSingleLine "Fri Oct 30 21:22:00 2026\n - ALARM: High sent to Police\n" ∧
    IsSingleLine "Fri Oct 30 21:22:00 2026 - ALARM: High sent to Police\n" := by
  have hs : ∃ line, Sound.makeSound severity = [Event.cout line] := by
    unfold Sound.makeSound
    split <;> exact ⟨_, rfl⟩
  have hn : ∃ line, Notify.send sendWho = [Event.cout line] := by
    unfold Notify.send
    split_ifs <;> exact ⟨_, rfl⟩
  obtain ⟨sl, hs⟩ := hs
  obtain ⟨nl, hn⟩ := hn
  have happ : ∀ e : LogEnv, appended (Alarm.triggerAlarm e severity sendWho)
      = (if e.is_open = true then
          [("info.txt",
            e.ctime ++ " - ALARM: " ++ severity ++ " sent to " ++ sendWho ++ "\n")]
         else []) := by
    intro e
    have htext := log_text_eq e.ctime severity sendWho
    by_cases ho : e.is_open = true <;>
      simp [Alarm.triggerAlarm, Log.logToFile, hs, hn, ho, appended, htext]
  have hcount : 2 ≤ lineBreaks
      (stamp ++ "\n" ++ " - ALARM: " ++ severity ++ " sent to " ++ sendWho ++ "\n") := by
    have h3 : lineBreaks "\n" = 1 := by decide
    rw [lineBreaks_append, lineBreaks_append, lineBreaks_append, lineBreaks_append,
      lineBreaks_append, lineBreaks_append, h3]
    omega
  refine ⟨happ env, ?_, ?_, hcount, ?_, by decide, by decide, by decide, by decide,
    by decide⟩
  · by_cases ho : env.is_open = true <;>
      simp [Alarm.triggerAlarm, Log.logToFile, hs, hn, ho, errors]
  · have h := happ ⟨true, stamp ++ "\n"⟩
    simpa using h
  · intro hsingle
    have h1 := hsingle.1
    omega


/-! ## The demo scenarios -/

/-- C12 (scenarios A to C of the demo).  On a freshly constructed object main
makes its first three pollSensors calls with mode "Away": the first, with the
readings 0, 0, 25, requests no alarm; the second, after
simulateSensorInput(0, 1), requests exactly ("High", "Police") and reports the
Motion sensor as "No Motion." and the Heat sensor as "Normal."; the third,
after simulateSensorInput(0, 0) and simulateSensorInput(1, 1), requests exactly
("Medium", "UserPhone"). -/
theorem demo_scenarios_A_B_C :
    Main.polls TitanSecurity.new (Main.setup ++ Main.scenario1 ++ Main.scenario2
        ++ Main.scenario3)
      = [[Action.print "\n--- Polling Sensors (Away Mode) ---",
          Action.print "Reading Front Door... Secure.",
          Action.print "Reading Living Room Motion... No Motion.",
          Action.print "Reading Kitchen Heat... Temp: 25C. Normal."],
         [Action.print "\n--- Polling Sensors (Away Mode) ---",
          Action.print "Reading Front Door... ! Triggering Alarm!",
          Action.triggerAlarm "High" "Police",
          Action.print "Reading Living Room Motion... No Motion.",
          Action.print "Reading Kitchen Heat... Temp: 25C. Normal."],
         [Action.print "\n--- Polling Sensors (Away Mode) ---",
          Action.print "Reading Front Door... Secure.",
          Action.print "Reading Living Room Motion... MOTION DETECTED!",
          Action.triggerAlarm "Medium" "UserPhone",
          Action.print "Reading Kitchen Heat... Temp: 25C. Normal."]] ∧
    (Main.polls TitanSecurity.new (Main.setup ++ Main.scenario1 ++ Main.scenario2
        ++ Main.scenario3)).map requests
      = [[], [("High", "Police")], [("Medium", "UserPhone")]] ∧
    (Main.polls TitanSecurity.new Main.body).take 3
      = Main.polls TitanSecurity.new (Main.setup ++ Main.scenario1 ++ Main.scenario2
          ++ Main.scenario3) := by
  decide

/-- C13, as stated, fails: in main the Motion reading is still 1 and the mode
still "Away" when the Heat reading is set to 60, so the fourth pollSensors call
requests two alarms, not the single ("Critical", "FireDept"). -/
theorem demo_scenario_D_two_alarms :
    (Main.exec TitanSecurity.new
        (Main.setup ++ Main.scenario1 ++ Main.scenario2 ++ Main.scenario3)).1
      = ⟨[⟨SensorClass.DoorSensor, "Front Door", "Entry", 0⟩,
          ⟨SensorClass.MotionSensor, "Living Room Motion", "Living Room", 1⟩,
          ⟨SensorClass.HeatSensor, "Kitchen Heat", "Kitchen", 25⟩], true, "Away"⟩ ∧
    (Main.polls (Main.exec TitanSecurity.new
        (Main.setup ++ Main.scenario1 ++ Main.scenario2 ++ Main.scenario3)).1
        Main.scenario4).map requests
      ≠ [[("Critical", "FireDept")]] ∧
    ((Main.polls (Main.exec TitanSecurity.new
        (Main.setup ++ Main.scenario1 ++ Main.scenario2 ++ Main.scenario3)).1
        Main.scenario4).map requests).map List.length = [2] := by
  decide

/-- C13, amended.  After scenario C (mode "Away", Door reading 0, Motion
reading 1) and simulateSensorInput(2, 60), the pollSensors call of scenario D
requests exactly two alarms: ("Medium", "UserPhone") for the Motion reading
that is still 1, then ("Critical", "FireDept") for the Heat reading; the Door
sensor is reported secure.  It is the fourth pollSensors call of main. -/
theorem demo_scenario_D :
    Main.polls (Main.exec TitanSecurity.new
        (Main.setup ++ Main.scenario1 ++ Main.scenario2 ++ Main.scenario3)).1
        Main.scenario4
      = [[Action.print "\n--- Polling Sensors (Away Mode) ---",
          Action.print "Reading Front Door... Secure.",
          Action.print "Reading Living Room Motion... MOTION DETECTED!",
          Action.triggerAlarm "Medium" "UserPhone",
          Action.print "Reading Kitchen Heat... Temp: 60C. DANGER! FIRE!",
          Action.triggerAlarm "Critical" "FireDept"]] ∧
    (Main.polls (Main.exec TitanSecurity.new
        (Main.setup ++ Main.scenario1 ++ Main.scenario2 ++ Main.scenario3)).1
        Main.scenario4).map requests
      = [[("Medium", "UserPhone"), ("Critical", "FireDept")]] ∧
    (Main.polls TitanSecurity.new Main.body)[3]?
      = (Main.polls (Main.exec TitanSecurity.new
          (Main.setup ++ Main.scenario1 ++ Main.scenario2 ++ Main.scenario3)).1
          Main.scenario4).head? := by
  decide

/-- C14, as stated, fails: the Heat reading is still 60 when main switches to
"Day", so the pollSensors call of scenario E requests one alarm, not zero. -/
theorem demo_scenario_E_one_alarm :
    (Main.exec TitanSecurity.new
        (Main.setup ++ Main.scenario1 ++ Main.scenario2 ++ Main.scenario3
          ++ Main.scenario4 ++ Main.report)).1
      = ⟨[⟨SensorClass.DoorSensor, "Front Door", "Entry", 0⟩,
          ⟨SensorClass.MotionSensor, "Living Room Motion", "Living Room", 1⟩,
          ⟨SensorClass.HeatSensor, "Kitchen Heat", "Kitchen", 60⟩], true, "Away"⟩ ∧
    (Main.polls (Main.exec TitanSecurity.new
        (Main.setup ++ Main.scenario1 ++ Main.scenario2 ++ Main.scenario3
          ++ Main.scenario4 ++ Main.report)).1
        Main.scenario5).map requests
      ≠ [[]] ∧
    ((Main.polls (Main.exec TitanSecurity.new
        (Main.setup ++ Main.scenario1 ++ Main.scenario2 ++ Main.scenario3
          ++ Main.scenario4 ++ Main.report)).1
        Main.scenario5).map requests).map List.length = [1] := by
  decide

/-- C14, amended.  After scenario D (Door reading 0, Motion reading 1, Heat
reading 60), setMode("Day") and simulateSensorInput(1, 1), the pollSensors
call of scenario E requests exactly one alarm, ("Critical", "FireDept"), for
the Heat reading that is still 60; the Motion sensor, with reading 1 in mode
"Day", is reported as "No Motion." and requests nothing, and the system is
disarmed.  It is the fifth and last pollSensors call of main. -/
theorem demo_scenario_E :
    Main.polls (Main.exec TitanSecurity.new
        (Main.setup ++ Main.scenario1 ++ Main.scenario2 ++ Main.scenario3
          ++ Main.scenario4 ++ Main.report)).1
        Main.scenario5
      = [[Action.print "\n--- Polling Sensors (Day Mode) ---",
          Action.print "Reading Front Door... Secure.",
          Action.print "Reading Living Room Motion... No Motion.",
          Action.print "Reading Kitchen Heat... Temp: 60C. DANGER! FIRE!",
          Action.triggerAlarm "Critical" "FireDept"]] ∧
    (Main.polls (Main.exec TitanSecurity.new
        (Main.setup ++ Main.scenario1 ++ Main.scenario2 ++ Main.scenario3
          ++ Main.scenario4 ++ Main.report)).1
        Main.scenario5).map requests
      = [[("Critical", "FireDept")]] ∧
    (Main.exec TitanSecurity.new Main.body).1
      = ⟨[⟨SensorClass.DoorSensor, "Front Door", "Entry", 0⟩,
          ⟨SensorClass.MotionSensor, "Living Room Motion", "Living Room", 1⟩,
          ⟨SensorClass.HeatSensor, "Kitchen Heat", "Kitchen", 60⟩], false, "Day"⟩ ∧
    (Main.polls TitanSecurity.new Main.body)[4]?
      = (Main.polls (Main.exec TitanSecurity.new
          (Main.setup ++ Main.scenario1 ++ Main.scenario2 ++ Main.scenario3
            ++ Main.scenario4 ++ Main.report)).1
          Main.scenario5).head? ∧
    (Main.polls TitanSecurity.new Main.body).length = 5 := by
  decide


/-! ## Invariants of the refactored controller -/

/-- One call keeps the mode valid and the armed flag equal to "mode is Away". -/
theorem TitanSecurity.call_keeps_mode_armed (self : TitanSecurity) (c : Call)
    (hmode : self.currentMode = "Day" ∨ self.currentMode = "Night"
      ∨ self.currentMode = "Away")
    (harmed : self.systemArmed = true ↔ self.currentMode = "Away") :
    ((self.call c).1.currentMode = "Day" ∨ (self.call c).1.currentMode = "Night"
      ∨ (self.call c).1.currentMode = "Away") ∧
    ((self.call c).1.systemArmed = true ↔ (self.call c).1.currentMode = "Away") := by
  cases c with
  | setMode mode =>
    simp only [TitanSecurity.call, TitanSecurity.setMode]
    by_cases hv : mode = "Day" ∨ mode = "Night" ∨ mode = "Away"
    · rw [if_pos hv]
      by_cases ha : mode = "Away"
      · rw [if_pos ha]
        exact ⟨hv, by simp [ha]⟩
      · rw [if_neg ha]
        exact ⟨hv, by simp [ha]⟩
    · rw [if_neg hv]
      exact ⟨hmode, harmed⟩
  | simulateSensorInput index value =>
    simp only [TitanSecurity.call, TitanSecurity.simulateSensorInput]
    split_ifs
    · exact ⟨hmode, harmed⟩
    · exact ⟨hmode, harmed⟩
  | pollSensors => exact ⟨hmode, harmed⟩

/-- Every sequence of calls keeps the mode valid and the armed flag equal to
"mode is Away". -/
theorem TitanSecurity.run_keeps_mode_armed (calls : List Call) :
    ∀ self : TitanSecurity,
      (self.currentMode = "Day" ∨ self.currentMode = "Night"
        ∨ self.currentMode = "Away") →
      (self.systemArmed = true ↔ self.currentMode = "Away") →
      (((self.run calls).1.currentMode = "Day" ∨ (self.run calls).1.currentMode = "Night"
        ∨ (self.run calls).1.currentMode = "Away") ∧
       ((self.run calls).1.systemArmed = true ↔ (self.run calls).1.currentMode = "Away")) := by
  induction calls with
  | nil => intro self hmode harmed; exact ⟨hmode, harmed⟩
  | cons c rest ih =>
    intro self hmode harmed
    simp only [TitanSecurity.run]
    have h := TitanSecurity.call_keeps_mode_armed self c hmode harmed
    exact ih _ h.1 h.2

/-- C15 (mode and armed flag of the refactored controller).  In every state
reached from the constructor by a finite sequence of setMode (any string),
simulateSensorInput (any integers) and pollSensors calls, the mode is "Day",
"Night" or "Away" and the armed flag is true if and only if the mode is
"Away"; so in such a state the loop body on a Door sensor requests
("High", "Police") exactly when the reading is 1 and the mode is "Away", and
requests nothing otherwise. -/
theorem reachable_mode_armed (calls : List Call) (i : Nat) (name location : String)
    (data : Int) :
    ((TitanSecurity.new.run calls).1.currentMode = "Day"
      ∨ (TitanSecurity.new.run calls).1.currentMode = "Night"
      ∨ (TitanSecurity.new.run calls).1.currentMode = "Away") ∧
    ((TitanSecurity.new.run calls).1.systemArmed = true
      ↔ (TitanSecurity.new.run calls).1.currentMode = "Away") ∧
    (requests ((TitanSecurity.new.run calls).1.pollSensor i
        ⟨SensorClass.DoorSensor, name, location, data⟩) = [("High", "Police")]
      ↔ data = 1 ∧ (TitanSecurity.new.run calls).1.currentMode = "Away") ∧
    (requests ((TitanSecurity.new.run calls).1.pollSensor i
        ⟨SensorClass.DoorSensor, name, location, data⟩) = []
      ↔ ¬(data = 1 ∧ (TitanSecurity.new.run calls).1.currentMode = "Away")) := by
  have h := TitanSecurity.run_keeps_mode_armed calls TitanSecurity.new
    (Or.inl rfl) (by decide)
  refine ⟨h.1, h.2, ?_, ?_⟩
  · rw [← h.2]
    by_cases hc : data = 1 ∧ (TitanSecurity.new.run calls).1.systemArmed = true <;>
      simp [TitanSecurity.pollSensor, requests, hc]
  · rw [← h.2]
    by_cases hc : data = 1 ∧ (TitanSecurity.new.run calls).1.systemArmed = true <;>
      simp [TitanSecurity.pollSensor, requests, hc]


/-- Two texts that start with literals differing at position n differ. -/
theorem append_ne_of_char_ne (a b x y : String) (n : Nat)
    (ha : n < a.data.length) (hb : n < b.data.length)
    (hne : a.data[n]? ≠ b.data[n]?) : a ++ x ≠ b ++ y := by
  intro h
  have h2 := congrArg String.data h
  simp only [String.data_append] at h2
  have h3 := congrArg (fun l => l[n]?) h2
  simp only [List.getElem?_append_left ha, List.getElem?_append_left hb] at h3
  exact hne h3

/-- No action of a loop body on a sensor of one of the three known classes is
the unknown-type warning. -/
theorem TitanSecurity.pollSensor_no_warning (self : TitanSecurity) (i j : Nat)
    (sensor : Sensor) (hknown : sensor.dynamicType ≠ SensorClass.other) :
    Action.print ("[Warning] Unknown sensor type found in index " ++ toString j)
      ∉ self.pollSensor i sensor := by
  have key : ∀ rest : String,
      "Reading " ++ rest ≠ "[Warning] Unknown sensor type found in index " ++ toString j :=
    fun rest => append_ne_of_char_ne _ _ _ _ 0 (by decide) (by decide) (by decide)
  have key2 : ∀ rest : String,
      ¬ "[Warning] Unknown sensor type found in index " ++ toString j = "Reading " ++ rest :=
    fun rest h => key rest h.symm
  obtain ⟨cls, name, location, data⟩ := sensor
  cases cls with
  | other => exact absurd rfl hknown
  | DoorSensor =>
    simp only [TitanSecurity.pollSensor]
    split_ifs <;> simp [String.append_assoc, key2]
  | MotionSensor =>
    simp only [TitanSecurity.pollSensor]
    split_ifs <;> simp [String.append_assoc, key2]
  | HeatSensor =>
    simp only [TitanSecurity.pollSensor]
    split_ifs <;> simp [String.append_assoc, key2]

/-- No action of the loop over sensors of the three known classes is the
unknown-type warning. -/
theorem TitanSecurity.pollLoop_no_warning (self : TitanSecurity) (j : Nat)
    (sensors : List Sensor) :
    ∀ i : Nat, (∀ sensor ∈ sensors, sensor.dynamicType ≠ SensorClass.other) →
      Action.print ("[Warning] Unknown sensor type found in index " ++ toString j)
        ∉ self.pollLoop i sensors := by
  induction sensors with
  | nil => intro i _; simp [TitanSecurity.pollLoop]
  | cons sensor rest ih =>
    intro i hknown
    simp only [TitanSecurity.pollLoop, List.mem_append, not_or]
    exact ⟨TitanSecurity.pollSensor_no_warning self i j sensor
        (hknown sensor (List.mem_cons_self _ _)),
      ih (i + 1) (fun s hs => hknown s (List.mem_cons_of_mem _ hs))⟩

/-- One call keeps the name, class and location of every registry entry, in
order. -/
theorem TitanSecurity.call_keeps_registry (self : TitanSecurity) (c : Call) :
    (self.call c).1.Sensors.map (fun s => (s.sensorName, s.dynamicType, s.sensorLocation))
      = self.Sensors.map (fun s => (s.sensorName, s.dynamicType, s.sensorLocation)) := by
  cases c with
  | setMode mode =>
    simp only [TitanSecurity.call, TitanSecurity.setMode]
    split_ifs <;> rfl
  | simulateSensorInput index value =>
    simp only [TitanSecurity.call, TitanSecurity.simulateSensorInput]
    split_ifs
    · exact map_modify_of_fixed
        (fun s : Sensor => (s.sensorName, s.dynamicType, s.sensorLocation))
        (fun sensor : Sensor => sensor.setData value) (fun _ => rfl) _ _
    · rfl
  | pollSensors => rfl

/-- A sequence of calls keeps the name, class and location of every registry
entry, in order. -/
theorem TitanSecurity.run_keeps_registry (calls : List Call) :
    ∀ self : TitanSecurity,
      (self.run calls).1.Sensors.map
          (fun s => (s.sensorName, s.dynamicType, s.sensorLocation))
        = self.Sensors.map (fun s => (s.sensorName, s.dynamicType, s.sensorLocation)) := by
  induction calls with
  | nil => intro self; rfl
  | cons c rest ih =>
    intro self
    simp only [TitanSecurity.run]
    rw [ih, TitanSecurity.call_keeps_registry]

/-- No output of a call is the unknown-type warning when the registry holds
known classes only. -/
theorem TitanSecurity.call_no_warning (self : TitanSecurity) (c : Call) (j : Nat)
    (hknown : ∀ sensor ∈ self.Sensors, sensor.dynamicType ≠ SensorClass.other) :
    Action.print ("[Warning] Unknown sensor type found in index " ++ toString j)
      ∉ (self.call c).2 := by
  cases c with
  | setMode mode =>
    have k1 : ¬ "[Warning] Unknown sensor type found in index " ++ toString j
        = "[System] Mode set to: " ++ mode :=
      append_ne_of_char_ne _ _ _ _ 1 (by decide) (by decide) (by decide)
    have k2 : ¬ "[Warning] Unknown sensor type found in index " ++ toString j
        = "[Error] Unknown mode." := by
      have h := append_ne_of_char_ne "[Warning] Unknown sensor type found in index "
        "[Error] Unknown mode." (toString j) "" 1 (by decide) (by decide) (by decide)
      simpa using h
    simp only [TitanSecurity.call, TitanSecurity.setMode]
    split_ifs <;> simp [k1, k2]
  | simulateSensorInput index value =>
    simp only [TitanSecurity.call, TitanSecurity.simulateSensorInput]
    split_ifs <;> simp
  | pollSensors =>
    have k3 : ¬ "[Warning] Unknown sensor type found in index " ++ toString j
        = "\n--- Polling Sensors (" ++ (self.currentMode ++ " Mode) ---") :=
      append_ne_of_char_ne _ _ _ _ 0 (by decide) (by decide) (by decide)
    simp only [TitanSecurity.call, TitanSecurity.pollSensors, List.mem_cons, not_or]
    refine ⟨?_, TitanSecurity.pollLoop_no_warning self j self.Sensors 0 hknown⟩
    simp [String.append_assoc, k3]

/-- C16 (registry of the refactored controller).  The constructor builds the
registry ("Front Door", Door, "Entry"), ("Living Room Motion", Motion,
"Living Room"), ("Kitchen Heat", Heat, "Kitchen") with the readings 0, 0, 25.
In every state reached from it by a finite sequence of setMode,
simulateSensorInput and pollSensors calls the registry still holds exactly
these three names, classes and locations in this order, so no entry is of an
unknown class and no call of the sequence ever prints the unknown-type warning,
whatever index it would name. -/
theorem reachable_registry (calls : List Call) (j : Nat) :
    TitanSecurity.new.Sensors
      = [⟨SensorClass.DoorSensor, "Front Door", "Entry", 0⟩,
         ⟨SensorClass.MotionSensor, "Living Room Motion", "Living Room", 0⟩,
         ⟨SensorClass.HeatSensor, "Kitchen Heat", "Kitchen", 25⟩] ∧
    (TitanSecurity.new.run calls).1.Sensors.map
        (fun s => (s.sensorName, s.dynamicType, s.sensorLocation))
      = [("Front Door", SensorClass.DoorSensor, "Entry"),
         ("Living Room Motion", SensorClass.MotionSensor, "Living Room"),
         ("Kitchen Heat", SensorClass.HeatSensor, "Kitchen")] ∧
    (TitanSecurity.new.run calls).1.Sensors.length = 3 ∧
    (∀ sensor ∈ (TitanSecurity.new.run calls).1.Sensors,
      sensor.dynamicType ≠ SensorClass.other) ∧
    Action.print ("[Warning] Unknown sensor type found in index " ++ toString j)
      ∉ (TitanSecurity.new.run calls).2 ∧
    Action.print ("[Warning] Unknown sensor type found in index " ++ toString j)
      ∉ (TitanSecurity.new.run calls).1.pollSensors.2 := by
  have hreg : ∀ cs : List Call, (TitanSecurity.new.run cs).1.Sensors.map
      (fun s => (s.sensorName, s.dynamicType, s.sensorLocation))
      = [("Front Door", SensorClass.DoorSensor, "Entry"),
         ("Living Room Motion", SensorClass.MotionSensor, "Living Room"),
         ("Kitchen Heat", SensorClass.HeatSensor, "Kitchen")] := by
    intro cs
    rw [TitanSecurity.run_keeps_registry]
    rfl
  have hknown : ∀ cs : List Call, ∀ sensor ∈ (TitanSecurity.new.run cs).1.Sensors,
      sensor.dynamicType ≠ SensorClass.other := by
    intro cs sensor hmem
    have hm : (sensor.sensorName, sensor.dynamicType, sensor.sensorLocation)
        ∈ (TitanSecurity.new.run cs).1.Sensors.map
          (fun s => (s.sensorName, s.dynamicType, s.sensorLocation)) :=
      List.mem_map_of_mem _ hmem
    rw [hreg cs] at hm
    simp only [List.mem_cons, Prod.mk.injEq, List.mem_nil_iff, or_false] at hm
    rcases hm with ⟨_, h, _⟩ | ⟨_, h, _⟩ | ⟨_, h, _⟩ <;> rw [h] <;> decide
  have hout : ∀ cs : List Call, ∀ self : TitanSecurity,
      (∀ sensor ∈ self.Sensors, sensor.dynamicType ≠ SensorClass.other) →
      Action.print ("[Warning] Unknown sensor type found in index " ++ toString j)
        ∉ (self.run cs).2 := by
    intro cs
    induction cs with
    | nil => intro self _; simp [TitanSecurity.run]
    | cons c rest ih =>
      intro self hk
      simp only [TitanSecurity.run, List.mem_append, not_or]
      refine ⟨TitanSecurity.call_no_warning self c j hk, ih _ ?_⟩
      intro sensor hmem
      have hm : (sensor.sensorName, sensor.dynamicType, sensor.sensorLocation)
          ∈ (self.call c).1.Sensors.map
            (fun s => (s.sensorName, s.dynamicType, s.sensorLocation)) :=
        List.mem_map_of_mem _ hmem
      rw [TitanSecurity.call_keeps_registry, List.mem_map] at hm
      obtain ⟨s0, hs0, heq⟩ := hm
      have ht : s0.dynamicType = sensor.dynamicType := by
        have := congrArg (fun p => p.2.1) heq
        simpa using this
      rw [← ht]
      exact hk s0 hs0
  refine ⟨rfl, hreg calls, ?_, hknown calls, ?_, ?_⟩
  · have h := congrArg List.length (hreg calls)
    simpa using h
  · exact hout calls TitanSecurity.new (hknown [])
  · exact TitanSecurity.call_no_warning _ Call.pollSensors j (hknown calls)


/-! ## Polling is stateless -/

/-- The requests of two runs of actions, one after the other. -/
theorem requests_append (a b : List Action) :
    requests (a ++ b) = requests a ++ requests b := by
  induction a with
  | nil => rfl
  | cons x rest ih =>
    cases x with
    | print line => simpa [requests] using ih
    | triggerAlarm severity sendWho => simp [requests, ih]

/-- The console lines of two traces, one after the other. -/
theorem console_append (a b : List Event) :
    console (a ++ b) = console a ++ console b := by
  induction a with
  | nil => rfl
  | cons x rest ih =>
    cases x with
    | cout text => simp [console, ih]
    | cerr text => simpa [console] using ih
    | fileAppend file text => simpa [console] using ih

/-- The console lines of a dispatch do not depend on the log environment. -/
theorem console_triggerAlarm (env : LogEnv) (severity sendWho : String) :
    console (Alarm.triggerAlarm env severity sendWho)
      = ("!!! ALARM TRIGGERED [" ++ severity ++ "] !!!")
          :: (console (Sound.makeSound severity) ++ console (Notify.send sendWho)) := by
  unfold Alarm.triggerAlarm Log.logToFile
  split_ifs <;> simp [console_append, console]

/-- The console lines of a run of actions do not depend on the log
environments its dispatches meet. -/
theorem console_perform_env (env1 env2 : Nat → LogEnv) (actions : List Action) :
    ∀ k1 k2 : Nat,
      console (perform Alarm.triggerAlarm env1 k1 actions)
        = console (perform Alarm.triggerAlarm env2 k2 actions) := by
  induction actions with
  | nil => intro k1 k2; rfl
  | cons x rest ih =>
    intro k1 k2
    cases x with
    | print line => simp [perform, console, ih k1 k2]
    | triggerAlarm severity sendWho =>
      simp only [perform, console_append, console_triggerAlarm]
      rw [ih (k1 + 1) (k2 + 1)]

/-- Polling n times in a row leaves the object as it was and repeats the output
of one poll n times. -/
theorem TitanSecurity.run_replicate_poll (self : TitanSecurity) (n : Nat) :
    self.run (List.replicate n Call.pollSensors)
      = (self, (List.replicate n self.pollSensors.2).flatten) := by
  induction n with
  | zero => rfl
  | succ m ih =>
    simp only [List.replicate_succ, TitanSecurity.run, List.flatten_cons]
    have h1 : (self.call Call.pollSensors).1 = self := rfl
    rw [h1, ih]
    rfl

/-- C17 (polling keeps no memory).  For every state, pollSensors returns the
object with the mode, the armed flag and every sensor unchanged; a second call
right after the first produces the same actions (status lines and alarm
requests) as the first, and n calls in a row produce n copies of them, so every
alarm requested by one poll is requested again by the next; the console lines
of the dispatches do not depend on the log environment either. -/
theorem poll_stateless (self : TitanSecurity) (n : Nat) (env1 env2 : Nat → LogEnv)
    (k1 k2 : Nat) :
    self.pollSensors.1 = self ∧
    self.pollSensors.1.pollSensors.2 = self.pollSensors.2 ∧
    (self.run (List.replicate n Call.pollSensors)).1 = self ∧
    (self.run (List.replicate n Call.pollSensors)).2
      = (List.replicate n self.pollSensors.2).flatten ∧
    requests (self.run [Call.pollSensors, Call.pollSensors]).2
      = requests self.pollSensors.2 ++ requests self.pollSensors.2 ∧
    console (perform Alarm.triggerAlarm env1 k1 self.pollSensors.2)
      = console (perform Alarm.triggerAlarm env2 k2 self.pollSensors.1.pollSensors.2) := by
  refine ⟨rfl, rfl, ?_, ?_, ?_, ?_⟩
  · rw [TitanSecurity.run_replicate_poll]
  · rw [TitanSecurity.run_replicate_poll]
  · simp [TitanSecurity.run, TitanSecurity.call, requests_append]
    rfl
  · exact console_perform_env env1 env2 _ k1 k2


/-! ## The shape of a poll -/

/-- The loop over two stretches of the registry, one after the other. -/
theorem TitanSecurity.pollLoop_append (self : TitanSecurity) (a b : List Sensor) :
    ∀ i : Nat, self.pollLoop i (a ++ b)
      = self.pollLoop i a ++ self.pollLoop (i + a.length) b := by
  induction a with
  | nil => intro i; simp [TitanSecurity.pollLoop]
  | cons x rest ih =>
    intro i
    have h : i + 1 + rest.length = i + (rest.length + 1) := by omega
    have e1 : self.pollLoop i (x :: (rest ++ b))
        = self.pollSensor i x ++ self.pollLoop (i + 1) (rest ++ b) := rfl
    have e2 : self.pollLoop i (x :: rest)
        = self.pollSensor i x ++ self.pollLoop (i + 1) rest := rfl
    rw [List.cons_append, e1, e2, ih (i + 1), List.append_assoc, List.length_cons, h]

/-- The loop visits the sensors in the order of their indices. -/
theorem TitanSecurity.pollLoop_eq_flatMap (self : TitanSecurity) (sensors : List Sensor) :
    ∀ i : Nat, self.pollLoop i sensors
      = (sensors.enumFrom i).flatMap (fun p => self.pollSensor p.1 p.2) := by
  induction sensors with
  | nil => intro i; rfl
  | cons x rest ih =>
    intro i
    simp only [TitanSecurity.pollLoop, List.enumFrom_cons, List.flatMap_cons, ih (i + 1)]

/-- The requests of a loop, sensor by sensor. -/
theorem TitanSecurity.requests_pollLoop (self : TitanSecurity) (sensors : List Sensor) :
    ∀ i : Nat, requests (self.pollLoop i sensors)
      = (sensors.enumFrom i).flatMap (fun p => requests (self.pollSensor p.1 p.2)) := by
  induction sensors with
  | nil => intro i; rfl
  | cons x rest ih =>
    intro i
    simp only [TitanSecurity.pollLoop, List.enumFrom_cons, List.flatMap_cons,
      requests_append, ih (i + 1)]

/-- A loop body prints one status line and then requests at most one alarm. -/
theorem TitanSecurity.pollSensor_shape (self : TitanSecurity) (i : Nat) (sensor : Sensor) :
    ∃ line, self.pollSensor i sensor = [Action.print line] ∨
      ∃ severity sendWho,
        self.pollSensor i sensor
          = [Action.print line, Action.triggerAlarm severity sendWho] := by
  obtain ⟨cls, name, location, data⟩ := sensor
  cases cls with
  | other => exact ⟨_, Or.inl rfl⟩
  | DoorSensor =>
    simp only [TitanSecurity.pollSensor]
    split_ifs
    · exact ⟨_, Or.inr ⟨_, _, rfl⟩⟩
    · exact ⟨_, Or.inl rfl⟩
  | MotionSensor =>
    simp only [TitanSecurity.pollSensor]
    split_ifs
    · exact ⟨_, Or.inr ⟨_, _, rfl⟩⟩
    · exact ⟨_, Or.inl rfl⟩
  | HeatSensor =>
    simp only [TitanSecurity.pollSensor]
    split_ifs
    · exact ⟨_, Or.inr ⟨_, _, rfl⟩⟩
    · exact ⟨_, Or.inl rfl⟩

/-- A loop body requests at most one alarm. -/
theorem TitanSecurity.requests_pollSensor_le (self : TitanSecurity) (i : Nat)
    (sensor : Sensor) : (requests (self.pollSensor i sensor)).length ≤ 1 := by
  obtain ⟨line, h | ⟨severity, sendWho, h⟩⟩ := TitanSecurity.pollSensor_shape self i sensor
  · rw [h]; simp [requests]
  · rw [h]; simp [requests]

/-- A loop requests at most as many alarms as it visits sensors. -/
theorem TitanSecurity.requests_pollLoop_le (self : TitanSecurity) (sensors : List Sensor) :
    ∀ i : Nat, (requests (self.pollLoop i sensors)).length ≤ sensors.length := by
  induction sensors with
  | nil => intro i; simp [TitanSecurity.pollLoop, requests]
  | cons x rest ih =>
    intro i
    simp only [TitanSecurity.pollLoop, requests_append, List.length_append, List.length_cons]
    have h1 := TitanSecurity.requests_pollSensor_le self i x
    have h2 := ih (i + 1)
    omega

/-- Carrying out two runs of actions, one after the other: the second starts
at the dispatch count the first has reached. -/
theorem perform_append (dispatch : LogEnv → String → String → List Event)
    (env : Nat → LogEnv) (a b : List Action) :
    ∀ k : Nat, perform dispatch env k (a ++ b)
      = perform dispatch env k a ++ perform dispatch env (k + (requests a).length) b := by
  induction a with
  | nil => intro k; simp [perform, requests]
  | cons x rest ih =>
    intro k
    cases x with
    | print line => simp [perform, requests, ih k]
    | triggerAlarm severity sendWho =>
      have h : k + 1 + (requests rest).length = k + ((requests rest).length + 1) := by omega
      have e1 : perform dispatch env k (Action.triggerAlarm severity sendWho :: (rest ++ b))
          = dispatch (env k) severity sendWho ++ perform dispatch env (k + 1) (rest ++ b) :=
        rfl
      have e2 : perform dispatch env k (Action.triggerAlarm severity sendWho :: rest)
          = dispatch (env k) severity sendWho ++ perform dispatch env (k + 1) rest := rfl
      have e3 : requests (Action.triggerAlarm severity sendWho :: rest)
          = (severity, sendWho) :: requests rest := rfl
      rw [List.cons_append, e1, e2, e3, ih (k + 1), List.append_assoc, List.length_cons, h]


/-- C18 (trace shape of a poll).  For every state: after its header the poll
is the concatenation, in increasing registry index, of the loop bodies; each
body is one status line followed by at most one alarm request.  Carried out by
the dispatcher, a poll of a registry pre, sensor, post is: header, the events
of the sensors of pre, the status line of sensor, the dispatch events of
sensor if it fires (and nothing if it does not), the events of the sensors of
post; and the events of a following sensor start with its status line.  So a
poll requests at most as many alarms as there are sensors, and the requests
are those of the sensors in registry order. -/
theorem poll_trace_shape (self : TitanSecurity) (pre post : List Sensor) (sensor : Sensor)
    (armed : Bool) (mode : String) (i j k : Nat) (env : Nat → LogEnv) :
    self.pollSensors.2
      = Action.print ("\n--- Polling Sensors (" ++ self.currentMode ++ " Mode) ---")
          :: (self.Sensors.enum.flatMap (fun p => self.pollSensor p.1 p.2)) ∧
    (∃ line, self.pollSensor i sensor = [Action.print line] ∨
      ∃ severity sendWho,
        self.pollSensor i sensor
          = [Action.print line, Action.triggerAlarm severity sendWho]) ∧
    (∃ line dispatched,
      ((TitanSecurity.pollSensor ⟨pre ++ sensor :: post, armed, mode⟩ pre.length sensor
            = [Action.print line] ∧ dispatched = []) ∨
        ∃ severity sendWho,
          TitanSecurity.pollSensor ⟨pre ++ sensor :: post, armed, mode⟩ pre.length sensor
            = [Action.print line, Action.triggerAlarm severity sendWho] ∧
          dispatched = Alarm.triggerAlarm
            (env (requests (TitanSecurity.pollLoop ⟨pre ++ sensor :: post, armed, mode⟩
              0 pre)).length) severity sendWho) ∧
      perform Alarm.triggerAlarm env 0
          (TitanSecurity.pollSensors ⟨pre ++ sensor :: post, armed, mode⟩).2
        = Event.cout ("\n--- Polling Sensors (" ++ mode ++ " Mode) ---")
            :: (perform Alarm.triggerAlarm env 0
                  (TitanSecurity.pollLoop ⟨pre ++ sensor :: post, armed, mode⟩ 0 pre)
                ++ (Event.cout line :: dispatched)
                ++ perform Alarm.triggerAlarm env
                  ((requests (TitanSecurity.pollLoop ⟨pre ++ sensor :: post, armed, mode⟩
                      0 pre)).length
                    + (requests (TitanSecurity.pollSensor
                        ⟨pre ++ sensor :: post, armed, mode⟩ pre.length sensor)).length)
                  (TitanSecurity.pollLoop ⟨pre ++ sensor :: post, armed, mode⟩
                    (pre.length + 1) post))) ∧
    (∃ line more tail,
      self.pollSensor j sensor = Action.print line :: more ∧
      perform Alarm.triggerAlarm env k (self.pollLoop j (sensor :: post))
        = Event.cout line :: tail) ∧
    (requests self.pollSensors.2).length ≤ self.Sensors.length ∧
    requests self.pollSensors.2
      = self.Sensors.enum.flatMap (fun p => requests (self.pollSensor p.1 p.2)) ∧
    (requests (self.pollSensor i sensor)).length ≤ 1 := by
  refine ⟨?_, TitanSecurity.pollSensor_shape self i sensor, ?_, ?_, ?_, ?_,
    TitanSecurity.requests_pollSensor_le self i sensor⟩
  · simp only [TitanSecurity.pollSensors, TitanSecurity.pollLoop_eq_flatMap, List.enum]
  · have hsplit : (TitanSecurity.pollSensors ⟨pre ++ sensor :: post, armed, mode⟩).2
        = Action.print ("\n--- Polling Sensors (" ++ mode ++ " Mode) ---")
            :: (TitanSecurity.pollLoop ⟨pre ++ sensor :: post, armed, mode⟩ 0 pre
                ++ (TitanSecurity.pollSensor ⟨pre ++ sensor :: post, armed, mode⟩
                      pre.length sensor
                    ++ TitanSecurity.pollLoop ⟨pre ++ sensor :: post, armed, mode⟩
                      (pre.length + 1) post)) := by
      simp only [TitanSecurity.pollSensors, TitanSecurity.pollLoop_append,
        TitanSecurity.pollLoop, Nat.zero_add]
    have hp : ∀ line : String, ∀ acts : List Action,
        perform Alarm.triggerAlarm env 0 (Action.print line :: acts)
          = Event.cout line :: perform Alarm.triggerAlarm env 0 acts := fun _ _ => rfl
    rw [hsplit, hp, perform_append, perform_append, Nat.zero_add]
    obtain ⟨line, h | ⟨severity, sendWho, h⟩⟩ := TitanSecurity.pollSensor_shape
      ⟨pre ++ sensor :: post, armed, mode⟩ pre.length sensor
    · refine ⟨line, [], Or.inl ⟨h, rfl⟩, ?_⟩
      rw [h]
      simp [perform, requests]
    · refine ⟨line, _, Or.inr ⟨severity, sendWho, h, rfl⟩, ?_⟩
      rw [h]
      simp [perform, requests]
  · obtain ⟨line, h | ⟨severity, sendWho, h⟩⟩ := TitanSecurity.pollSensor_shape self j sensor
    · refine ⟨line, [], perform Alarm.triggerAlarm env k (self.pollLoop (j + 1) post), h, ?_⟩
      simp only [TitanSecurity.pollLoop, h]
      rfl
    · refine ⟨line, [Action.triggerAlarm severity sendWho],
        Alarm.triggerAlarm (env k) severity sendWho
          ++ perform Alarm.triggerAlarm env (k + 1) (self.pollLoop (j + 1) post), h, ?_⟩
      simp only [TitanSecurity.pollLoop, h]
      rfl
  · simp only [TitanSecurity.pollSensors, requests]
    exact TitanSecurity.requests_pollLoop_le self self.Sensors 0
  · simp only [TitanSecurity.pollSensors, requests, TitanSecurity.requests_pollLoop,
      List.enum]


/-! ## Sensors of an unknown category -/

/-- The indices below n: those below i, then i, then those above i. -/
theorem range_split (i n : Nat) (h : i < n) :
    List.range n = List.range i ++ i :: List.range' (i + 1) (n - (i + 1)) := by
  have h1 : List.range' 0 i ++ List.range' (0 + 1 * i) (n - (i + 1) + 1)
      = List.range' 0 (n - (i + 1) + 1 + i) :=
    List.range'_append 0 i (n - (i + 1) + 1) 1
  have h2 : n - (i + 1) + 1 + i = n := by omega
  rw [h2, List.range'_succ] at h1
  rw [List.range_eq_range', List.range_eq_range', ← h1]
  simp

/-- C19 (unknown category).  In the refactored controller a registry entry
that is none of DoorSensor, MotionSensor, HeatSensor makes the loop body print
exactly one line, the warning that ends in its registry index, and request no
alarm, whatever its reading, the mode and the armed flag; in a registry pre,
unknown, post the poll goes on with the sensors of post after the warning.  In
the original controller the same holds for a type string that is none of
"DoorSensor", "MotionSensor", "HeatSensor": the body at index i is the one
warning line for i, and the poll evaluates the indices below i, prints the
warning, and evaluates every index above i up to the end of the registry. -/
theorem unknown_sensor (self : TitanSecurity) (legacy : TitanSystem) (i j : Nat)
    (name location type : String) (data : Int) (pre post : List Sensor)
    (armed : Bool) (mode : String)
    (htype : type ≠ "DoorSensor" ∧ type ≠ "MotionSensor" ∧ type ≠ "HeatSensor")
    (hj : j < legacy.sensorNames.length)
    (hat : legacy.sensorTypes.getD j "" = type) :
    self.pollSensor i ⟨SensorClass.other, name, location, data⟩
      = [Action.print ("[Warning] Unknown sensor type found in index " ++ toString i)] ∧
    requests (self.pollSensor i ⟨SensorClass.other, name, location, data⟩) = [] ∧
    (TitanSecurity.pollSensors
        ⟨pre ++ ⟨SensorClass.other, name, location, data⟩ :: post, armed, mode⟩).2
      = Action.print ("\n--- Polling Sensors (" ++ mode ++ " Mode) ---")
          :: (TitanSecurity.pollLoop
                ⟨pre ++ ⟨SensorClass.other, name, location, data⟩ :: post, armed, mode⟩
                0 pre
              ++ Action.print ("[Warning] Unknown sensor type found in index "
                    ++ toString pre.length)
                :: TitanSecurity.pollLoop
                    ⟨pre ++ ⟨SensorClass.other, name, location, data⟩ :: post, armed, mode⟩
                    (pre.length + 1) post) ∧
    legacy.pollSensor i name type data
      = [Action.print ("[Warning] Unknown sensor type found in index " ++ toString i)] ∧
    requests (legacy.pollSensor i name type data) = [] ∧
    legacy.pollSensors.2
      = Action.print ("\n--- Polling Sensors (" ++ legacy.currentMode ++ " Mode) ---")
          :: ((List.range j).flatMap (fun m =>
                legacy.pollSensor m (legacy.sensorNames.getD m "")
                  (legacy.sensorTypes.getD m "") (legacy.sensorData.getD m 0))
              ++ Action.print ("[Warning] Unknown sensor type found in index "
                    ++ toString j)
                :: (List.range' (j + 1) (legacy.sensorNames.length - (j + 1))).flatMap
                    (fun m =>
                      legacy.pollSensor m (legacy.sensorNames.getD m "")
                        (legacy.sensorTypes.getD m "") (legacy.sensorData.getD m 0))) := by
  have hbody : ∀ (m : Nat) (nm : String) (d : Int), legacy.pollSensor m nm type d
      = [Action.print ("[Warning] Unknown sensor type found in index " ++ toString m)] := by
    intro m nm d
    simp [TitanSystem.pollSensor, htype.1, htype.2.1, htype.2.2]
  refine ⟨rfl, rfl, ?_, hbody i name data, ?_, ?_⟩
  · simp only [TitanSecurity.pollSensors, TitanSecurity.pollLoop_append,
      TitanSecurity.pollLoop, Nat.zero_add]
    rfl
  · rw [hbody i name data]
    rfl
  · simp only [TitanSystem.pollSensors, TitanSystem.pollLoop]
    rw [range_split j legacy.sensorNames.length hj, List.flatMap_append, List.flatMap_cons,
      hat, hbody]
    rfl

/-- Witness for C19: a TitanSystem registry whose second entry has the type
"SmokeSensor"; the body at index 1 is the warning for index 1, and the poll
still evaluates the Heat sensor at index 2, which fires. -/
theorem unknown_sensor_witness :
    ("SmokeSensor" ≠ "DoorSensor" ∧ "SmokeSensor" ≠ "MotionSensor"
      ∧ "SmokeSensor" ≠ "HeatSensor") ∧
    TitanSystem.pollSensor
        ⟨["Front Door", "Hall Smoke", "Kitchen Heat"],
         ["DoorSensor", "SmokeSensor", "HeatSensor"], [1, 1, 60],
         ["Entry", "Hall", "Kitchen"], true, "Away"⟩ 1 "Hall Smoke" "SmokeSensor" 1
      = [Action.print ("[Warning] Unknown sensor type found in index " ++ toString 1)] ∧
    (TitanSystem.pollSensors
        ⟨["Front Door", "Hall Smoke", "Kitchen Heat"],
         ["DoorSensor", "SmokeSensor", "HeatSensor"], [1, 1, 60],
         ["Entry", "Hall", "Kitchen"], true, "Away"⟩).2
      = [Action.print "\n--- Polling Sensors (Away Mode) ---",
         Action.print "Reading Front Door... ! Triggering Alarm!",
         Action.triggerAlarm "High" "Police",
         Action.print "[Warning] Unknown sensor type found in index 1",
         Action.print "Reading Kitchen Heat... Temp: 60C. DANGER! FIRE!",
         Action.triggerAlarm "Critical" "FireDept"] :=
  ⟨by decide,
   (unknown_sensor TitanSecurity.new
      ⟨["Front Door", "Hall Smoke", "Kitchen Heat"],
       ["DoorSensor", "SmokeSensor", "HeatSensor"], [1, 1, 60],
       ["Entry", "Hall", "Kitchen"], true, "Away"⟩ 1 1 "Hall Smoke" "Hall" "SmokeSensor" 1
      [] [] true "Away" (by decide) (by decide) (by decide)).2.2.2.1,
   by decide⟩


/-! ## Agreement of the two implementations -/

/-- Leaving the file name out does not change the console lines. -/
theorem console_map_unfiled (l : List Event) :
    console (l.map Event.unfiled) = console l := by
  induction l with
  | nil => rfl
  | cons x rest ih => cases x <;> simp [Event.unfiled, console, ih]

/-- Leaving the file name out does not change the lines on std::cerr. -/
theorem errors_map_unfiled (l : List Event) :
    errors (l.map Event.unfiled) = errors l := by
  induction l with
  | nil => rfl
  | cons x rest ih => cases x <;> simp [Event.unfiled, errors, ih]

/-- Leaving the file name out does not change the appended texts. -/
theorem appended_map_unfiled (l : List Event) :
    (appended (l.map Event.unfiled)).map Prod.snd = (appended l).map Prod.snd := by
  induction l with
  | nil => rfl
  | cons x rest ih => cases x <;> simp [Event.unfiled, appended, ih]

/-- For a known recipient the two dispatchers do the same, file name apart. -/
theorem triggerAlarm_agree (env : LogEnv) (severity sendWho : String)
    (hknown : sendWho = "Police" ∨ sendWho = "FireDept" ∨ sendWho = "UserPhone") :
    (TitanSystem.triggerAlarm env severity sendWho).map Event.unfiled
      = (Alarm.triggerAlarm env severity sendWho).map Event.unfiled := by
  have hn : TitanSystem.notification sendWho = Notify.send sendWho := by
    rcases hknown with h | h | h <;> subst h <;> decide
  have hs : (if severity = "High" ∨ severity = "Critical" then
        [Event.cout ">>> PLAYING LOUD SIREN SOUND <<<"]
      else [Event.cout ">>> Beeping Keypad <<<"]) = Sound.makeSound severity := rfl
  unfold TitanSystem.triggerAlarm Alarm.triggerAlarm
  rw [hs, hn]
  unfold TitanSystem.logToFile Log.logToFile
  split_ifs <;> simp [Event.unfiled]

/-- Actions whose alarm requests all go to known recipients are carried out
alike by the two dispatchers, file name apart. -/
theorem perform_agree (env : Nat → LogEnv) (actions : List Action) :
    ∀ k : Nat,
      (∀ p ∈ requests actions, p.2 = "Police" ∨ p.2 = "FireDept" ∨ p.2 = "UserPhone") →
      (perform TitanSystem.triggerAlarm env k actions).map Event.unfiled
        = (perform Alarm.triggerAlarm env k actions).map Event.unfiled := by
  induction actions with
  | nil => intro k _; rfl
  | cons x rest ih =>
    intro k hknown
    cases x with
    | print line =>
      simp only [perform, List.map_cons]
      rw [ih k (fun p hp => hknown p (by simpa [requests] using hp))]
    | triggerAlarm severity sendWho =>
      simp only [perform, List.map_append]
      rw [ih (k + 1) (fun p hp => hknown p (by simp [requests, hp])),
        triggerAlarm_agree (env k) severity sendWho
          (hknown (severity, sendWho) (by simp [requests]))]

/-- Every alarm a loop body of the refactored controller requests goes to a
known recipient. -/
theorem TitanSecurity.pollSensor_known (self : TitanSecurity) (i : Nat) (sensor : Sensor) :
    ∀ p ∈ requests (self.pollSensor i sensor),
      p.2 = "Police" ∨ p.2 = "FireDept" ∨ p.2 = "UserPhone" := by
  obtain ⟨cls, name, location, data⟩ := sensor
  cases cls with
  | other => simp [TitanSecurity.pollSensor, requests]
  | DoorSensor =>
    simp only [TitanSecurity.pollSensor]
    split_ifs <;> simp [requests]
  | MotionSensor =>
    simp only [TitanSecurity.pollSensor]
    split_ifs <;> simp [requests]
  | HeatSensor =>
    simp only [TitanSecurity.pollSensor]
    split_ifs <;> simp [requests]

/-- Every alarm a poll of the refactored controller requests goes to a known
recipient. -/
theorem TitanSecurity.pollSensors_known (self : TitanSecurity) :
    ∀ p ∈ requests self.pollSensors.2,
      p.2 = "Police" ∨ p.2 = "FireDept" ∨ p.2 = "UserPhone" := by
  have hloop : ∀ (sensors : List Sensor) (i : Nat),
      ∀ p ∈ requests (self.pollLoop i sensors),
        p.2 = "Police" ∨ p.2 = "FireDept" ∨ p.2 = "UserPhone" := by
    intro sensors
    induction sensors with
    | nil => intro i p hp; simp [TitanSecurity.pollLoop, requests] at hp
    | cons x rest ih =>
      intro i p hp
      simp only [TitanSecurity.pollLoop, requests_append, List.mem_append] at hp
      rcases hp with hp | hp
      · exact TitanSecurity.pollSensor_known self i x p hp
      · exact ih (i + 1) p hp
  intro p hp
  simp only [TitanSecurity.pollSensors, requests] at hp
  exact hloop self.Sensors 0 p hp

/-- On the starter registry the two polls do the same actions. -/
theorem starter_poll_eq (mode : String) (armed : Bool) (door motion heat : Int) :
    (TitanSystem.starter mode armed door motion heat).pollSensors.2
      = (TitanSecurity.starter mode armed door motion heat).pollSensors.2 := by
  simp [TitanSystem.pollSensors, TitanSystem.pollLoop, TitanSystem.pollSensor,
    TitanSystem.starter, TitanSecurity.pollSensors, TitanSecurity.pollLoop,
    TitanSecurity.pollSensor, TitanSecurity.starter, List.range_succ]


/-- One call on the two implementations, started with the same mode and
readings on the starter registry: afterwards the mode and the readings are
again the same; when the armed flags were the same too, the outputs are the
same, and the armed flags afterwards differ only after setMode("Day") or
setMode("Night") on an armed system. -/
theorem starter_call_agree (mode : String) (a1 a2 : Bool) (door motion heat : Int)
    (c : Call) :
    ∃ (mode' : String) (b1 b2 : Bool) (door' motion' heat' : Int),
      ((TitanSecurity.starter mode a1 door motion heat).call c).1
        = TitanSecurity.starter mode' b1 door' motion' heat' ∧
      ((TitanSystem.starter mode a2 door motion heat).call c).1
        = TitanSystem.starter mode' b2 door' motion' heat' ∧
      (a1 = a2 →
        ((TitanSecurity.starter mode a1 door motion heat).call c).2
          = ((TitanSystem.starter mode a2 door motion heat).call c).2 ∧
        (b1 = b2 ∨ (a1 = true ∧ b1 = false ∧ b2 = true
          ∧ (c = Call.setMode "Day" ∨ c = Call.setMode "Night")))) := by
  cases c with
  | setMode x =>
    by_cases hv : x = "Day" ∨ x = "Night" ∨ x = "Away"
    · by_cases ha : x = "Away"
      · refine ⟨x, true, true, door, motion, heat, ?_, ?_, fun _ => ⟨?_, Or.inl rfl⟩⟩ <;>
          simp [TitanSecurity.call, TitanSystem.call, TitanSecurity.setMode,
            TitanSystem.setMode, TitanSecurity.starter, TitanSystem.starter, ha]
      · have hx : x = "Day" ∨ x = "Night" := by
          rcases hv with h | h | h
          · exact Or.inl h
          · exact Or.inr h
          · exact absurd h ha
        refine ⟨x, false, a2, door, motion, heat, ?_, ?_, fun h12 => ⟨?_, ?_⟩⟩
        · simp [TitanSecurity.call, TitanSecurity.setMode, TitanSecurity.starter, hx, ha]
        · simp [TitanSystem.call, TitanSystem.setMode, TitanSystem.starter, hx, ha]
        · simp [TitanSecurity.call, TitanSystem.call, TitanSecurity.setMode,
            TitanSystem.setMode, hx, ha]
        · cases a2 with
          | false => exact Or.inl rfl
          | true =>
            refine Or.inr ⟨h12, rfl, rfl, ?_⟩
            rcases hx with h | h
            · exact Or.inl (by rw [h])
            · exact Or.inr (by rw [h])
    · refine ⟨mode, a1, a2, door, motion, heat, ?_, ?_, fun h12 => ⟨?_, Or.inl h12⟩⟩ <;>
        simp [TitanSecurity.call, TitanSystem.call, TitanSecurity.setMode,
          TitanSystem.setMode, hv]
  | simulateSensorInput index value =>
    by_cases h0 : index ≥ 0
    · rcases hn : toSizeT index with _ | _ | _ | n
      · refine ⟨mode, a1, a2, value, motion, heat, ?_, ?_, fun h12 => ⟨?_, Or.inl h12⟩⟩ <;>
          simp [TitanSecurity.call, TitanSystem.call, TitanSecurity.simulateSensorInput,
            TitanSystem.simulateSensorInput, TitanSecurity.starter, TitanSystem.starter,
            hn, h0, Sensor.setData, List.modify, List.modifyHead]
      · refine ⟨mode, a1, a2, door, value, heat, ?_, ?_, fun h12 => ⟨?_, Or.inl h12⟩⟩ <;>
          simp [TitanSecurity.call, TitanSystem.call, TitanSecurity.simulateSensorInput,
            TitanSystem.simulateSensorInput, TitanSecurity.starter, TitanSystem.starter,
            hn, h0, Sensor.setData, List.modify, List.modifyHead]
      · refine ⟨mode, a1, a2, door, motion, value, ?_, ?_, fun h12 => ⟨?_, Or.inl h12⟩⟩ <;>
          simp [TitanSecurity.call, TitanSystem.call, TitanSecurity.simulateSensorInput,
            TitanSystem.simulateSensorInput, TitanSecurity.starter, TitanSystem.starter,
            hn, h0, Sensor.setData, List.modify, List.modifyHead]
      · refine ⟨mode, a1, a2, door, motion, heat, ?_, ?_, fun h12 => ⟨?_, Or.inl h12⟩⟩ <;>
          simp [TitanSecurity.call, TitanSystem.call, TitanSecurity.simulateSensorInput,
            TitanSystem.simulateSensorInput, TitanSecurity.starter, TitanSystem.starter,
            hn, h0]
    · refine ⟨mode, a1, a2, door, motion, heat, ?_, ?_, fun h12 => ⟨?_, Or.inl h12⟩⟩ <;>
        simp [TitanSecurity.call, TitanSystem.call, TitanSecurity.simulateSensorInput,
          TitanSystem.simulateSensorInput, h0]
  | pollSensors =>
    refine ⟨mode, a1, a2, door, motion, heat, rfl, rfl, fun h12 => ⟨?_, Or.inl h12⟩⟩
    subst h12
    exact (starter_poll_eq mode a1 door motion heat).symm

/-- After any sequence of calls on the two implementations, started with the
same mode and readings on the starter registry, the mode and the readings are
the same. -/
theorem starter_run_agree (calls : List Call) :
    ∀ (mode : String) (a1 a2 : Bool) (door motion heat : Int),
      ∃ (mode' : String) (b1 b2 : Bool) (door' motion' heat' : Int),
        ((TitanSecurity.starter mode a1 door motion heat).run calls).1
          = TitanSecurity.starter mode' b1 door' motion' heat' ∧
        ((TitanSystem.starter mode a2 door motion heat).run calls).1
          = TitanSystem.starter mode' b2 door' motion' heat' := by
  induction calls with
  | nil =>
    intro mode a1 a2 door motion heat
    exact ⟨mode, a1, a2, door, motion, heat, rfl, rfl⟩
  | cons c rest ih =>
    intro mode a1 a2 door motion heat
    obtain ⟨m, b1, b2, d, mo, h, e1, e2, _⟩ :=
      starter_call_agree mode a1 a2 door motion heat c
    simp only [TitanSecurity.run, TitanSystem.run]
    rw [e1, e2]
    exact ih m b1 b2 d mo h

/-- C20 (the two implementations agree on polling).  For every mode string,
armed flag and triple of readings on the starter registry, pollSensors of
TitanSystem and of TitanSecurity produce the same actions: the same status
lines and the same alarm requests, in the same order.  Carried out by their
dispatchers in the same log environments, the two polls write the same console
lines, append the same log texts (to system_log.txt and to info.txt) and write
the same lines to std::cerr.  One call of setMode, simulateSensorInput or
pollSensors on both, from the same state, gives the same output and the same
mode and readings, and armed flags that differ only after setMode("Day") or
setMode("Night") on an armed system; after any sequence of calls from the
constructors the two objects have the same mode and readings. -/
theorem implementations_agree_on_poll (mode : String) (armed : Bool)
    (door motion heat : Int) (env : Nat → LogEnv) (k : Nat) (c : Call)
    (calls : List Call) :
    (TitanSystem.starter mode armed door motion heat).pollSensors.2
      = (TitanSecurity.starter mode armed door motion heat).pollSensors.2 ∧
    requests (TitanSystem.starter mode armed door motion heat).pollSensors.2
      = requests (TitanSecurity.starter mode armed door motion heat).pollSensors.2 ∧
    console (perform TitanSystem.triggerAlarm env k
        (TitanSystem.starter mode armed door motion heat).pollSensors.2)
      = console (perform Alarm.triggerAlarm env k
          (TitanSecurity.starter mode armed door motion heat).pollSensors.2) ∧
    (appended (perform TitanSystem.triggerAlarm env k
        (TitanSystem.starter mode armed door motion heat).pollSensors.2)).map Prod.snd
      = (appended (perform Alarm.triggerAlarm env k
          (TitanSecurity.starter mode armed door motion heat).pollSensors.2)).map Prod.snd ∧
    errors (perform TitanSystem.triggerAlarm env k
        (TitanSystem.starter mode armed door motion heat).pollSensors.2)
      = errors (perform Alarm.triggerAlarm env k
          (TitanSecurity.starter mode armed door motion heat).pollSensors.2) ∧
    (∃ (mode' : String) (b1 b2 : Bool) (door' motion' heat' : Int),
      ((TitanSecurity.starter mode armed door motion heat).call c).1
        = TitanSecurity.starter mode' b1 door' motion' heat' ∧
      ((TitanSystem.starter mode armed door motion heat).call c).1
        = TitanSystem.starter mode' b2 door' motion' heat' ∧
      ((TitanSecurity.starter mode armed door motion heat).call c).2
        = ((TitanSystem.starter mode armed door motion heat).call c).2 ∧
      (b1 = b2 ∨ (armed = true ∧ b1 = false ∧ b2 = true
        ∧ (c = Call.setMode "Day" ∨ c = Call.setMode "Night")))) ∧
    (∃ (mode' : String) (b1 b2 : Bool) (door' motion' heat' : Int),
      (TitanSecurity.new.run calls).1 = TitanSecurity.starter mode' b1 door' motion' heat' ∧
      (TitanSystem.new.run calls).1 = TitanSystem.starter mode' b2 door' motion' heat') := by
  have hpoll := starter_poll_eq mode armed door motion heat
  have hperf : (perform TitanSystem.triggerAlarm env k
        (TitanSystem.starter mode armed door motion heat).pollSensors.2).map Event.unfiled
      = (perform Alarm.triggerAlarm env k
          (TitanSecurity.starter mode armed door motion heat).pollSensors.2).map
          Event.unfiled := by
    rw [hpoll]
    exact perform_agree env _ k (TitanSecurity.pollSensors_known _)
  refine ⟨hpoll, by rw [hpoll], ?_, ?_, ?_, ?_, ?_⟩
  · rw [← console_map_unfiled, hperf, console_map_unfiled]
  · rw [← appended_map_unfiled, hperf, appended_map_unfiled]
  · rw [← errors_map_unfiled, hperf, errors_map_unfiled]
  · obtain ⟨m, b1, b2, d, mo, h, e1, e2, e3⟩ :=
      starter_call_agree mode armed armed door motion heat c
    exact ⟨m, b1, b2, d, mo, h, e1, e2, (e3 rfl).1, (e3 rfl).2⟩
  · exact starter_run_agree calls "Day" false false 0 0 25

end Titan
